import Mathlib

/-!
Fade To Black engine rewrite: the run-loop stub (`stub.cpp`).

A shallow embedding of `GameStub_F2B`: the mode state machine (`init`, `setState`, `doTick`),
the cutscene sequencing step of `doTick`, the deferred save/load requests
(`saveState`, `loadState`, `drawGL`), the input events (`queueKeyInput`, `queueTouchInput`),
and the language selection of `setArgs` (`parseLanguage`, `parseVoice`).

The engine (`Game`, `Cutscene`, `Render`) lives in other translation units.  The stub only
reads and writes a handful of its fields; every method it calls on the engine is taken as a
parameter (`Engine.run`).  A ghost `log` on the stub records those calls in program order.
The `#ifdef __vita__` branches are not part of this build and are not modelled.
-/

/-! ## The fallback successor table (stub.cpp 84-103) -/

/-- The `switch` of `getNextCutsceneNum`: the hard-coded successor of a clip, `-1` when the
clip has none. -/
def getNextCutsceneNum (num : Int) : Int :=
  if num = 47 then 39        -- logo ea
  else if num = 39 then 13   -- logo dsi
  else if num = 13 then 37   -- 'intro'
  else if num = 37 then 53   -- opening credits - 'title'
  else if num = 53 then 29   -- 'gendeb'
  else if num = 48 then 44   -- closing credits - 'mgm'
  else if num = 44 then 13   -- fade to black - 'fade1'
  else -1

/-! ## Engine state seen by the stub -/

/-- One reading of a pointer: `inp.pointers[p][k]`. -/
structure PlayerInputPointer where
  x : Int
  y : Int
  down : Bool
  deriving DecidableEq, Repr

/-- The fields of `_g->inp` that the stub touches.  `pointers[p]` is the pair
(`pointers[p][0]`, `pointers[p][1]`), i.e. (current, previous); the list has
`kPlayerInputPointersCount` entries. -/
structure PlayerInput where
  dirMask : Nat
  altKey : Bool
  shiftKey : Bool
  ctrlKey : Bool
  spaceKey : Bool
  tabKey : Bool
  escapeKey : Bool
  inventoryKey : Bool
  jumpKey : Bool
  useKey : Bool
  enterKey : Bool
  numKeys : List Bool
  footStepKey : Bool
  backStepKey : Bool
  farNear : Bool
  pointers : List (PlayerInputPointer × PlayerInputPointer)
  deriving DecidableEq, Repr

/-- Modelled from the spec: the cutscene cursor `_g->_cut`, whose class is declared outside
this file.  The stub reads and writes `_numToPlay` and reads `_numToPlayCounter` directly; the
spec's data model adds "a flag meaning the sequence was user-interrupted, and a FIFO override
queue of upcoming clip ids". -/
structure Cutscene where
  _numToPlay : Int
  _numToPlayCounter : Int
  interrupted : Bool
  playQueue : List Int
  deriving DecidableEq, Repr

/-- Modelled from the spec: `isInterrupted() -> bool` reads the interrupted flag. -/
def Cutscene.isInterrupted (c : Cutscene) : Bool := c.interrupted

/-- Modelled from the spec: `dequeue() -> clipId-or-none` pops the head of the override queue
when it is non-empty and answers "none" (`-1`) when it is empty. -/
def Cutscene.dequeue (c : Cutscene) : Int × Cutscene :=
  match c.playQueue with
  | [] => (-1, c)
  | q :: qs => (q, { c with playQueue := qs })

/-- The fields of `Game` that the stub reads or writes. -/
structure Game where
  _cut : Cutscene
  inp : PlayerInput
  _level : Int
  _changeLevel : Bool
  _endGame : Bool
  _cabinetItemCount : Int
  _cheats : Nat
  deriving DecidableEq, Repr

/-- Constants declared in headers outside this file. -/
structure Params where
  kLevelGameOver : Int
  g_isDemo : Bool
  deriving DecidableEq, Repr

/-! ## Calls into the engine -/

/-- The calls the stub makes, with their arguments.  `setState` is the stub's own method; it is
logged so that its invocations can be counted.  `initLevel none` is the call `initLevel()`
with the declaration's default argument, `initLevel (some true)` is `initLevel(true)`. -/
inductive Call where
  | setState (state : Int)
  | renderResizeOverlay (w h : Int)
  | renderSetPalette (start count : Int)
  | renderDrawOverlay
  | finiCabinet
  | finiMenu
  | cutLoad (num : Int)
  | cutUpdate (ticks : Nat)
  | cutUnload
  | updatePalette
  | initInventory
  | initCabinet
  | initMenu
  | initInstaller
  | initLevel (arg : Option Bool)
  | updateGameInput
  | gameDoTick
  | updateInventoryInput
  | doInventory
  | closeInventory
  | doCabinet
  | doMenu
  | doInstaller
  | loadGameState (slot : Int)
  | setGameStateLoad (slot : Int)
  | saveGameState (slot : Int)
  | saveScreenshot (slot : Int)
  | setGameStateSave (slot : Int)
  deriving DecidableEq, Repr

/-- The engine as the stub sees it: each call may change the game in any way and answers a
boolean (ignored for `void` methods).
Modelled from the spec: `load(clipId) -> bool` only reports whether the clip could be loaded;
it neither moves the cursor nor touches the override queue (`cutLoad_cursor`). -/
structure Engine where
  run : Call → Game → Bool × Game
  cutLoad_cursor : ∀ (num : Int) (g : Game),
    (run (Call.cutLoad num) g).2._cut._numToPlay = g._cut._numToPlay ∧
    (run (Call.cutLoad num) g).2._cut.playQueue = g._cut.playQueue

/-! ## The stub -/

/-- The members of `GameStub_F2B` that take part in the run loop, plus the ghost `log`. -/
structure GameStub_F2B where
  _g : Game
  _state : Int
  _nextState : Int
  _slotState : Int
  _loadState : Bool
  _saveState : Bool
  log : List Call
  deriving DecidableEq, Repr

def kStateCutscene : Int := 0
def kStateGame : Int := 1
def kStateInventory : Int := 2
def kStateCabinet : Int := 3
def kStateMenu : Int := 4
def kStateInstaller : Int := 5

namespace GameStub_F2B

/-- Record a call that has no effect on the game (the `Render` object, the stub itself). -/
def note (c : Call) (s : GameStub_F2B) : GameStub_F2B :=
  { s with log := s.log ++ [c] }

/-- Call into the engine: the game is replaced by what the engine leaves, the call is logged,
and the boolean answer is returned. -/
def invoke (E : Engine) (c : Call) (s : GameStub_F2B) : Bool × GameStub_F2B :=
  ((E.run c s._g).1, { s with _g := (E.run c s._g).2, log := s.log ++ [c] })

/-- The `// release` switch of `setState` (stub.cpp 143-155), on the current `_state`. -/
def release (E : Engine) (s : GameStub_F2B) : GameStub_F2B :=
  if s._state = kStateCutscene then
    note (Call.renderSetPalette 0 256) (note (Call.renderResizeOverlay 0 0) s)
  else if s._state = kStateCabinet then (invoke E Call.finiCabinet s).2
  else if s._state = kStateMenu then (invoke E Call.finiMenu s).2
  else s

/-- The method `setState` (stub.cpp 142-180): release the current mode, initialise the new one,
then `_state = state`, unless `initInventory()` answers false, in which case it returns
early. -/
def setState (E : Engine) (state : Int) (s : GameStub_F2B) : GameStub_F2B :=
  let s := release E (note (Call.setState state) s)
  if state = kStateCutscene then
    { (invoke E (Call.cutLoad s._g._cut._numToPlay) s).2 with _state := state }
  else if state = kStateGame then
    { (invoke E Call.updatePalette s).2 with _state := state }
  else if state = kStateInventory then
    if !(invoke E Call.initInventory s).1 then (invoke E Call.initInventory s).2
    else { (invoke E Call.initInventory s).2 with _state := state }
  else if state = kStateCabinet then
    { (invoke E Call.initCabinet s).2 with _state := state }
  else if state = kStateMenu then
    { (invoke E Call.initMenu s).2 with _state := state }
  else if state = kStateInstaller then
    { (invoke E Call.initInstaller s).2 with _state := state }
  else { s with _state := state }

/-- Write `_g->_cut._numToPlay = num`. -/
def setNumToPlay (num : Int) (s : GameStub_F2B) : GameStub_F2B :=
  { s with _g := { s._g with _cut := { s._g._cut with _numToPlay := num } } }

/-- Length of the fallback chain that starts at a clip: how many times `getNextCutsceneNum`
can be applied before it answers a negative id.  Used only to justify termination. -/
def chainLen (num : Int) : Nat :=
  if num = 47 then 6 else if num = 48 then 6
  else if num = 39 then 5 else if num = 44 then 5
  else if num = 13 then 4 else if num = 37 then 3 else if num = 53 then 2
  else if 0 ≤ num then 1 else 0

/-- The body of the `do ... while` loop of `doTick` (stub.cpp 489-493): take the head of the
override queue, fall back on the table when the queue gave nothing, store the candidate in
`_numToPlay`. -/
def advanceBody (s : GameStub_F2B) : GameStub_F2B :=
  let num := s._g._cut.dequeue.1
  let s := { s with _g := { s._g with _cut := s._g._cut.dequeue.2 } }
  let num := if num < 0 then getNextCutsceneNum s._g._cut._numToPlay else num
  setNumToPlay num s

/-- The measure that decreases around the loop: seven per queued id plus the length of the
fallback chain of the cursor. -/
def advanceMeasure (s : GameStub_F2B) : Nat :=
  s._g._cut.playQueue.length * 7 + chainLen s._g._cut._numToPlay

/-- The `do ... while` loop of `doTick` (stub.cpp 488-494): repeat the body while the candidate
is a clip id (`>= 0`) whose `load` fails. -/
def advanceLoop (E : Engine) (s : GameStub_F2B) : GameStub_F2B :=
  if _h : 0 ≤ (advanceBody s)._g._cut._numToPlay then
    if !(invoke E (Call.cutLoad (advanceBody s)._g._cut._numToPlay) (advanceBody s)).1 then
      advanceLoop E (invoke E (Call.cutLoad (advanceBody s)._g._cut._numToPlay) (advanceBody s)).2
    else (invoke E (Call.cutLoad (advanceBody s)._g._cut._numToPlay) (advanceBody s)).2
  else advanceBody s
termination_by advanceMeasure s
decreasing_by
  have hc := E.cutLoad_cursor (advanceBody s)._g._cut._numToPlay (advanceBody s)._g
  have hpos : 0 ≤ (advanceBody s)._g._cut._numToPlay := by assumption
  simp only [advanceMeasure, invoke, hc.1, hc.2]
  cases hq : s._g._cut.playQueue with
  | nil =>
    have hnext : ∀ n : Int, 0 ≤ getNextCutsceneNum n →
        chainLen (getNextCutsceneNum n) < chainLen n := by
      intro n h
      unfold getNextCutsceneNum at h ⊢
      split_ifs at h ⊢ <;> simp_all [chainLen]
    have hb : (advanceBody s)._g._cut._numToPlay = getNextCutsceneNum s._g._cut._numToPlay := by
      simp [advanceBody, Cutscene.dequeue, hq, setNumToPlay]
    have hq2 : (advanceBody s)._g._cut.playQueue = [] := by
      simp [advanceBody, Cutscene.dequeue, hq, setNumToPlay]
    rw [hb] at hpos
    have := hnext _ hpos
    simp only [hb, hq2, List.length_nil]
    omega
  | cons q qs =>
    have hle : ∀ n : Int, chainLen n ≤ 6 := by
      intro n
      unfold chainLen
      split_ifs <;> omega
    have := hle (advanceBody s)._g._cut._numToPlay
    have hq2 : (advanceBody s)._g._cut.playQueue = qs := by
      simp [advanceBody, Cutscene.dequeue, hq, setNumToPlay]
    simp only [hq2, List.length_cons]
    omega

/-- The sequencing step of the cutscene branch (stub.cpp 487-497): run the loop unless the
cutscene was interrupted, in which case the cursor is set to `-1`. -/
def advance (E : Engine) (s : GameStub_F2B) : GameStub_F2B :=
  if !s._g._cut.isInterrupted then advanceLoop E s
  else setNumToPlay (-1) s

/-- The `kStateCutscene` case of `doTick` (stub.cpp 483-508). -/
def tickCutscene (P : Params) (E : Engine) (ticks : Nat) (s : GameStub_F2B) : GameStub_F2B :=
  if !(invoke E (Call.cutUpdate ticks) s).1 then
    let s := (invoke E Call.cutUnload (invoke E (Call.cutUpdate ticks) s).2).2
    let cutsceneNum := s._g._cut._numToPlay
    let s := advance E s
    if s._g._cut._numToPlay < 0 then
      let s := { s with _nextState := kStateGame }
      if s._g._level = P.kLevelGameOver || (P.g_isDemo && cutsceneNum = 43) then
        -- restart
        let s := { s with _g := { s._g with _changeLevel := false } }
        let s := { s with _g := { s._g with _level := 0 } }
        (invoke E (Call.initLevel none) s).2
      else s
    else s
  else (invoke E (Call.cutUpdate ticks) s).2

/-- The `kStateGame` case of `doTick` (stub.cpp 509-538). -/
def tickGame (E : Engine) (s : GameStub_F2B) : GameStub_F2B :=
  let s :=
    if s._g._changeLevel then
      (invoke E (Call.initLevel (some true)) { s with _g := { s._g with _changeLevel := false } }).2
    else if s._g._endGame then
      (invoke E (Call.initLevel none) { s with _g := { s._g with _endGame := false } }).2
    else s
  let s := (invoke E Call.updateGameInput s).2
  let s := (invoke E Call.gameDoTick s).2
  if s._g.inp.inventoryKey then
    { s with _g := { s._g with inp := { s._g.inp with inventoryKey := false } },
             _nextState := kStateInventory }
  else if s._g.inp.escapeKey then
    { s with _g := { s._g with inp := { s._g.inp with escapeKey := false } },
             _nextState := kStateMenu }
  else if 0 ≤ s._g._cut._numToPlay ∧ s._g._cut._numToPlayCounter = 0 then
    { s with _nextState := kStateCutscene }
  else if s._g._cabinetItemCount ≠ 0 then
    { s with _nextState := kStateCabinet }
  else s

/-- The `kStateInventory` case of `doTick` (stub.cpp 539-548). -/
def tickInventory (E : Engine) (s : GameStub_F2B) : GameStub_F2B :=
  let s := (invoke E Call.updateInventoryInput s).2
  let s := (invoke E Call.doInventory s).2
  if s._g.inp.inventoryKey || s._g.inp.escapeKey then
    let s := { s with _g := { s._g with inp := { s._g.inp with inventoryKey := false } } }
    let s := { s with _g := { s._g with inp := { s._g.inp with escapeKey := false } } }
    let s := (invoke E Call.closeInventory s).2
    { s with _nextState := kStateGame }
  else s

/-- The `kStateCabinet` case of `doTick` (stub.cpp 549-554). -/
def tickCabinet (E : Engine) (s : GameStub_F2B) : GameStub_F2B :=
  let s := (invoke E Call.doCabinet s).2
  if s._g._cabinetItemCount = 0 then { s with _nextState := kStateGame } else s

/-- The `kStateMenu` case of `doTick` (stub.cpp 555-571). -/
def tickMenu (E : Engine) (s : GameStub_F2B) : GameStub_F2B :=
  let r := invoke E Call.doMenu s
  let s := if !r.1 then { r.2 with _nextState := kStateGame } else r.2
  if s._g.inp.escapeKey then
    { s with _g := { s._g with inp := { s._g.inp with escapeKey := false } },
             _nextState := kStateGame }
  else s

/-- The `kStateInstaller` case of `doTick` (stub.cpp 572-575). -/
def tickInstaller (E : Engine) (s : GameStub_F2B) : GameStub_F2B :=
  (invoke E Call.doInstaller s).2

/-- The `switch (_state)` of `doTick` (stub.cpp 482-576). -/
def dispatch (P : Params) (E : Engine) (ticks : Nat) (s : GameStub_F2B) : GameStub_F2B :=
  if s._state = kStateCutscene then tickCutscene P E ticks s
  else if s._state = kStateGame then tickGame E s
  else if s._state = kStateInventory then tickInventory E s
  else if s._state = kStateCabinet then tickCabinet E s
  else if s._state = kStateMenu then tickMenu E s
  else if s._state = kStateInstaller then tickInstaller E s
  else s

/-- The head of `doTick` (stub.cpp 478-481): run `setState` when a change is pending, then
`_nextState = _state`. -/
def transition (E : Engine) (s : GameStub_F2B) : GameStub_F2B :=
  let s := if s._nextState ≠ s._state then setState E s._nextState s else s
  { s with _nextState := s._state }

/-- The closing loop of `doTick` (stub.cpp 577-579): `pointers[p][1].down = false` for every
pointer slot. -/
def clearPointers (s : GameStub_F2B) : GameStub_F2B :=
  { s with _g := { s._g with inp := { s._g.inp with
      pointers := s._g.inp.pointers.map (fun p => (p.1, { p.2 with down := false })) } } }

/-- The method `doTick` (stub.cpp 477-580). -/
def doTick (P : Params) (E : Engine) (ticks : Nat) (s : GameStub_F2B) : GameStub_F2B :=
  clearPointers (dispatch P E ticks (transition E s))

/-- The first block of `drawGL` (stub.cpp 586-594): serve a pending load request. -/
def drainLoad (E : Engine) (s : GameStub_F2B) : GameStub_F2B :=
  if s._loadState then
    let s :=
      if s._state = kStateGame then
        if (invoke E (Call.loadGameState s._slotState) s).1 then
          (invoke E (Call.setGameStateLoad s._slotState)
            (invoke E (Call.loadGameState s._slotState) s).2).2
        else (invoke E (Call.loadGameState s._slotState) s).2
      else s
    { s with _loadState := false }
  else s

/-- The second block of `drawGL` (stub.cpp 595-604): serve a pending save request. -/
def drainSave (E : Engine) (s : GameStub_F2B) : GameStub_F2B :=
  if s._saveState then
    let s :=
      if s._state = kStateGame then
        if (invoke E (Call.saveGameState s._slotState) s).1 then
          let s := (invoke E (Call.saveGameState s._slotState) s).2
          let s := (invoke E (Call.saveScreenshot s._slotState) s).2
          (invoke E (Call.setGameStateSave s._slotState) s).2
        else (invoke E (Call.saveGameState s._slotState) s).2
      else s
    { s with _saveState := false }
  else s

/-- The method `drawGL` (stub.cpp 584-605). -/
def drawGL (E : Engine) (s : GameStub_F2B) : GameStub_F2B :=
  drainSave E (drainLoad E (note Call.renderDrawOverlay s))

/-- The method `saveState(slot)` (stub.cpp 606-609). -/
def saveState (slot : Int) (s : GameStub_F2B) : GameStub_F2B :=
  { s with _slotState := slot, _saveState := true }

/-- The method `loadState(slot)` (stub.cpp 610-613). -/
def loadState (slot : Int) (s : GameStub_F2B) : GameStub_F2B :=
  { s with _slotState := slot, _loadState := true }

/-! ## Vocabulary for the statements -/

/-- Is this log entry an invocation of the stub's `setState`? -/
def isSetState : Call → Bool
  | Call.setState _ => true
  | _ => false

/-- The exit effects of a mode, in the spec's words: "cutscene mode resets overlay size and
restores the base palette; cabinet/menu modes release their owned resources". -/
def specExitEffects (mode : Int) : List Call :=
  if mode = kStateCutscene then [Call.renderResizeOverlay 0 0, Call.renderSetPalette 0 256]
  else if mode = kStateCabinet then [Call.finiCabinet]
  else if mode = kStateMenu then [Call.finiMenu]
  else []

/-- The enter effects of a mode, in the spec's words: "cutscene mode begins loading the
cursor's clip; simulation mode refreshes the color palette from game state; inventory mode
attempts to open; cabinet/menu/installer modes acquire their resources". -/
def specEnterEffects (mode : Int) (cursor : Int) : List Call :=
  if mode = kStateCutscene then [Call.cutLoad cursor]
  else if mode = kStateGame then [Call.updatePalette]
  else if mode = kStateInventory then [Call.initInventory]
  else if mode = kStateCabinet then [Call.initCabinet]
  else if mode = kStateMenu then [Call.initMenu]
  else if mode = kStateInstaller then [Call.initInstaller]
  else []

/-- A step from `s` to `t` that leaves the current mode and the save/load requests alone and
makes no call of `setState`: the log of `t` is the log of `s` followed by other calls. -/
structure Quiet (s t : GameStub_F2B) : Prop where
  state_eq : t._state = s._state
  slot_eq : t._slotState = s._slotState
  load_eq : t._loadState = s._loadState
  save_eq : t._saveState = s._saveState
  log_ext : ∃ rest, t.log = s.log ++ rest ∧ ∀ c ∈ rest, isSetState c = false

/-- Does the enter effect of the pending mode refuse the change?  Only Inventory can: its
`initInventory()` is asked on the game as the exit effects left it. -/
def enterRefused (E : Engine) (s : GameStub_F2B) : Bool :=
  decide (s._nextState = kStateInventory) &&
    !(invoke E Call.initInventory (release E (note (Call.setState s._nextState) s))).1

/-- The calls a tick owes to a pending mode change, in the spec's words: nothing when pending
equals current; otherwise one `setState`, made of the exit effects of the current mode followed
by the enter effects of the pending mode. -/
def specTransitionEffects (E : Engine) (s : GameStub_F2B) : List Call :=
  if s._nextState = s._state then []
  else Call.setState s._nextState ::
    (specExitEffects s._state ++
      specEnterEffects s._nextState
        (release E (note (Call.setState s._nextState) s))._g._cut._numToPlay)

/-- The per-tick update of a mode: the case of the `switch` of `doTick` labelled by it. -/
def modeUpdate (P : Params) (E : Engine) (ticks : Nat) (mode : Int) :
    GameStub_F2B → GameStub_F2B :=
  if mode = kStateCutscene then tickCutscene P E ticks
  else if mode = kStateGame then tickGame E
  else if mode = kStateInventory then tickInventory E
  else if mode = kStateCabinet then tickCabinet E
  else if mode = kStateMenu then tickMenu E
  else if mode = kStateInstaller then tickInstaller E
  else id

/-- Is this log entry the save collaborator, `saveGameState(slot)`? -/
def isSave : Call → Bool
  | Call.saveGameState _ => true
  | _ => false

/-- Is this log entry one of the two storage collaborators, `loadGameState(slot)` or
`saveGameState(slot)`? -/
def isStorage : Call → Bool
  | Call.loadGameState _ => true
  | Call.saveGameState _ => true
  | _ => false

/-- A run of ticks, each with its own engine behaviour and elapsed time. -/
def runTicks (P : Params) : List (Engine × Nat) → GameStub_F2B → GameStub_F2B
  | [], s => s
  | (E, ticks) :: rest, s => runTicks P rest (doTick P E ticks s)

/-! ## Concrete inputs -/

/-- An engine that leaves the game as it is and answers each call as `answer` says. -/
def engineOf (answer : Call → Bool) : Engine where
  run := fun c g => (answer c, g)
  cutLoad_cursor := fun _ _ => ⟨rfl, rfl⟩

/-- Every call succeeds. -/
def engineOk : Engine := engineOf (fun _ => true)

/-- Every call succeeds but `initInventory()`. -/
def engineNoInventory : Engine := engineOf (fun c => decide (c ≠ Call.initInventory))

/-- Every call succeeds but `load(39)`. -/
def engineNo39 : Engine := engineOf (fun c => decide (c ≠ Call.cutLoad 39))

/-- The playing clip has completed: `update` answers false, every other call succeeds. -/
def engineClipDone : Engine := engineOf (fun c => !(match c with | Call.cutUpdate _ => true | _ => false))

def pointer0 : PlayerInputPointer := { x := 0, y := 0, down := false }

def input0 : PlayerInput :=
  { dirMask := 0, altKey := false, shiftKey := false, ctrlKey := false, spaceKey := false,
    tabKey := false, escapeKey := false, inventoryKey := false, jumpKey := false,
    useKey := false, enterKey := false,
    numKeys := [false, false, false, false, false, false],
    footStepKey := false, backStepKey := false, farNear := false,
    pointers := [(pointer0, pointer0), (pointer0, pointer0)] }

/-- The game right after `init`: the cursor is on clip 47 and nothing is queued. -/
def game0 : Game :=
  { _cut := { _numToPlay := 47, _numToPlayCounter := 0, interrupted := false, playQueue := [] },
    inp := input0, _level := 0, _changeLevel := false, _endGame := false,
    _cabinetItemCount := 0, _cheats := 0 }

def params0 : Params := { kLevelGameOver := 14, g_isDemo := false }

/-- The stub in a given mode with nothing pending, on `game0` with the cursor at `num`. -/
def stubIn (mode : Int) (num : Int) : GameStub_F2B :=
  { _g := { game0 with _cut := { game0._cut with _numToPlay := num } },
    _state := mode, _nextState := mode, _slotState := 0,
    _loadState := false, _saveState := false, log := [] }

/-- Simulation mode with Inventory pending while the inventory key is (again) down. -/
def stubInventoryKey : GameStub_F2B :=
  { _g := { game0 with inp := { input0 with inventoryKey := true } },
    _state := kStateGame, _nextState := kStateInventory, _slotState := 0,
    _loadState := false, _saveState := false, log := [] }

/-- Inventory mode with the inventory key down: the next tick closes the inventory and asks for
Simulation, the tick after that enters it. -/
def stubClosingInventory : GameStub_F2B :=
  { _g := { game0 with inp := { input0 with inventoryKey := true } },
    _state := kStateInventory, _nextState := kStateInventory, _slotState := 0,
    _loadState := false, _saveState := false, log := [] }

/-- The stub at the moment the playing clip has completed in the cutscene branch of `doTick`:
`update(ticks)` has been asked (and answered false) and `unload()` has run. -/
def atCompletion (E : Engine) (ticks : Nat) (s : GameStub_F2B) : GameStub_F2B :=
  (invoke E Call.cutUnload (invoke E (Call.cutUpdate ticks) s).2).2

/-- Cutscene mode on clip 47 with the cutscene interrupted and clips 5 and 6 queued. -/
def stubInterrupted : GameStub_F2B :=
  { _g := { game0 with _cut := { game0._cut with interrupted := true, playQueue := [5, 6] } },
    _state := kStateCutscene, _nextState := kStateCutscene, _slotState := 0,
    _loadState := false, _saveState := false, log := [] }

/-- Cutscene mode on clip 47 with clips 5 and 6 queued. -/
def stubQueued : GameStub_F2B :=
  { _g := { game0 with _cut := { game0._cut with playQueue := [5, 6] } },
    _state := kStateCutscene, _nextState := kStateCutscene, _slotState := 0,
    _loadState := false, _saveState := false, log := [] }

/-- The stub right after the first candidate of the loop failed to load: the state on which the
loop body runs again. -/
def afterFailedLoad (E : Engine) (s : GameStub_F2B) : GameStub_F2B :=
  (invoke E (Call.cutLoad (advanceBody s)._g._cut._numToPlay) (advanceBody s)).2

/-! ## Pointer events and the simulation update -/

/-- The method `queueTouchInput` (stub.cpp 469-476): inside the slot range,
`pointers[p][1] = pointers[p][0]` and then `pointers[p][0]` receives `x`, `y` and `down != 0`.
`kPlayerInputPointersCount` is the number of entries of `inp.pointers`. -/
def queueTouchInput (pointer x y down : Int) (s : GameStub_F2B) : GameStub_F2B :=
  if 0 ≤ pointer ∧ pointer < (s._g.inp.pointers.length : Int) then
    match s._g.inp.pointers[pointer.toNat]? with
    | some p =>
      { s with _g := { s._g with inp := { s._g.inp with
          pointers := s._g.inp.pointers.set pointer.toNat
            ({ x := x, y := y, down := decide (down ≠ 0) }, p.1) } } }
    | none => s
  else s

/-- The first half of the `kStateGame` case of `doTick` (stub.cpp 518-526): the level is
initialised when asked for, then `updateGameInput()` and `doTick()` run.  This is the state the
mode requests of stub.cpp 527-537 are read from. -/
def gameUpdated (E : Engine) (s : GameStub_F2B) : GameStub_F2B :=
  let s :=
    if s._g._changeLevel then
      (invoke E (Call.initLevel (some true)) { s with _g := { s._g with _changeLevel := false } }).2
    else if s._g._endGame then
      (invoke E (Call.initLevel none) { s with _g := { s._g with _endGame := false } }).2
    else s
  let s := (invoke E Call.updateGameInput s).2
  (invoke E Call.gameDoTick s).2

/-- Simulation mode, nothing pending, with the inventory and the escape key both down. -/
def stubBothKeys : GameStub_F2B :=
  { _g := { game0 with inp := { input0 with inventoryKey := true, escapeKey := true } },
    _state := kStateGame, _nextState := kStateGame, _slotState := 0,
    _loadState := false, _saveState := false, log := [] }

end GameStub_F2B

/-! ## Language and voice selection (stub.cpp 39-82) -/

/-- Modelled from the spec: the enumeration `FileLanguage` is declared in `file.h`, outside this
file; its values are the languages of the "fixed five-entry table". -/
inductive FileLanguage where
  | kFileLanguage_EN
  | kFileLanguage_FR
  | kFileLanguage_GR
  | kFileLanguage_SP
  | kFileLanguage_IT
  deriving DecidableEq, Repr

/-- An entry of the table `_languages`. -/
structure LanguageEntry where
  lang : FileLanguage
  str : String
  voice : Bool
  deriving DecidableEq, Repr

/-- The table `_languages` (stub.cpp 39-49). -/
def _languages : List LanguageEntry :=
  [ { lang := FileLanguage.kFileLanguage_EN, str := "EN", voice := true },
    { lang := FileLanguage.kFileLanguage_FR, str := "FR", voice := true },
    { lang := FileLanguage.kFileLanguage_GR, str := "GR", voice := true },
    { lang := FileLanguage.kFileLanguage_SP, str := "SP", voice := false },
    { lang := FileLanguage.kFileLanguage_IT, str := "IT", voice := false } ]

/-- The comparison behind the C library's `strcasecmp`, on the characters before the
terminating NUL: zero when the two strings agree once upper-case letters are folded to lower
case, otherwise negative or positive after the first difference. -/
def strcasecmpAux : List Char → List Char → Int
  | [], [] => 0
  | [], _ :: _ => -1
  | _ :: _, [] => 1
  | a :: as, b :: bs =>
    if a.toLower = b.toLower then strcasecmpAux as bs
    else if a.toLower < b.toLower then -1 else 1

/-- The C library's `strcasecmp`. -/
def strcasecmp (a b : String) : Int := strcasecmpAux a.data b.data

/-- The function `parseLanguage` (stub.cpp 51-60); `none` is the null pointer. -/
def parseLanguage (language : Option String) : FileLanguage :=
  match language with
  | some l =>
    match _languages.find? (fun e => strcasecmp e.str l == 0) with
    | some e => e.lang
    | none => FileLanguage.kFileLanguage_EN
  | none => FileLanguage.kFileLanguage_EN

/-- The function `parseVoice` (stub.cpp 62-82); `none` is the null pointer.  The first entry
that matches ends the search: its language is returned when it has voice files, and otherwise
the `break` leads to the default. -/
def parseVoice (voice : Option String) (lang : FileLanguage) : FileLanguage :=
  match lang with
  | FileLanguage.kFileLanguage_SP | FileLanguage.kFileLanguage_IT =>
    match voice with
    | some v =>
      match _languages.find? (fun e => strcasecmp e.str v == 0) with
      | some e => if e.voice then e.lang else FileLanguage.kFileLanguage_EN
      | none => FileLanguage.kFileLanguage_EN  -- default to English
    | none => FileLanguage.kFileLanguage_EN
  | _ => lang  -- voice must match text for other languages

/-- The characters of a string with upper-case letters folded to lower case. -/
def lowerCase (s : String) : List Char := s.data.map Char.toLower

/-- Two strings match case-insensitively. -/
def sameIgnoringCase (a b : String) : Prop := lowerCase a = lowerCase b

namespace GameStub_F2B

/-! ## The end of a cutscene sequence -/

/-- Cutscene mode on clip 48 (closing credits), interrupted, with the game at `level`. -/
def stubEnding (level : Int) : GameStub_F2B :=
  { _g := { game0 with _cut := { game0._cut with _numToPlay := 48, interrupted := true },
                       _level := level },
    _state := kStateCutscene, _nextState := kStateCutscene, _slotState := 0,
    _loadState := false, _saveState := false, log := [] }

/-- The `do ... while` loop of `doTick` (stub.cpp 488-494) run for at most `fuel` iterations:
`none` when the loop has not left by then. -/
def advanceLoopFuel (E : Engine) : Nat → GameStub_F2B → Option GameStub_F2B
  | 0, _ => none
  | fuel + 1, s =>
    if 0 ≤ (advanceBody s)._g._cut._numToPlay then
      if !(invoke E (Call.cutLoad (advanceBody s)._g._cut._numToPlay) (advanceBody s)).1 then
        advanceLoopFuel E fuel
          (invoke E (Call.cutLoad (advanceBody s)._g._cut._numToPlay) (advanceBody s)).2
      else some (invoke E (Call.cutLoad (advanceBody s)._g._cut._numToPlay) (advanceBody s)).2
    else some (advanceBody s)

/-- A bound on the iterations the loop can make from a state: with nothing queued the length of
the fallback chain of the cursor (one at least), and otherwise one per queued id plus six. -/
def iterationBound (s : GameStub_F2B) : Nat :=
  if s._g._cut.playQueue = [] then max 1 (chainLen s._g._cut._numToPlay)
  else s._g._cut.playQueue.length + 6

/-! ## Key events (stub.cpp 400-468) -/

/-- Constants of the headers `stub.h` and `game.h`, which are outside this file: the key codes
`kKeyCode...`, the direction masks `kInputDir...` and the cheat mask `kCheatLifeCounter`. -/
structure KeyCodes where
  kKeyCodeLeft : Int
  kKeyCodeRight : Int
  kKeyCodeUp : Int
  kKeyCodeDown : Int
  kKeyCodeAlt : Int
  kKeyCodeShift : Int
  kKeyCodeCtrl : Int
  kKeyCodeSpace : Int
  kKeyCodeTab : Int
  kKeyCodeEscape : Int
  kKeyCodeI : Int
  kKeyCodeJ : Int
  kKeyCodeU : Int
  kKeyCodeReturn : Int
  kKeyCode1 : Int
  kKeyCode2 : Int
  kKeyCode3 : Int
  kKeyCode4 : Int
  kKeyCode5 : Int
  kKeyCodePageUp : Int
  kKeyCodePageDown : Int
  kKeyCodeFarNear : Int
  kKeyCodeCheatLifeCounter : Int
  kInputDirLeft : Nat
  kInputDirRight : Nat
  kInputDirUp : Nat
  kInputDirDown : Nat
  kCheatLifeCounter : Nat

/-- The C expression `x & ~m` on unsigned values: the bits of `x` that are not bits of `m`. -/
def andNot (x m : Nat) : Nat := x ^^^ (x &&& m)

/-- Write `_g->inp = inp`. -/
def setInp (inp : PlayerInput) (s : GameStub_F2B) : GameStub_F2B :=
  { s with _g := { s._g with inp := inp } }

/-- The method `queueKeyInput` (stub.cpp 400-468).  A `bool` field receives `pressed != 0`. -/
def queueKeyInput (K : KeyCodes) (keycode pressed : Int) (s : GameStub_F2B) : GameStub_F2B :=
  if keycode = K.kKeyCodeLeft then
    setInp { s._g.inp with
      dirMask := if pressed ≠ 0 then s._g.inp.dirMask ||| K.kInputDirLeft
        else andNot s._g.inp.dirMask K.kInputDirLeft } s
  else if keycode = K.kKeyCodeRight then
    setInp { s._g.inp with
      dirMask := if pressed ≠ 0 then s._g.inp.dirMask ||| K.kInputDirRight
        else andNot s._g.inp.dirMask K.kInputDirRight } s
  else if keycode = K.kKeyCodeUp then
    setInp { s._g.inp with
      dirMask := if pressed ≠ 0 then s._g.inp.dirMask ||| K.kInputDirUp
        else andNot s._g.inp.dirMask K.kInputDirUp } s
  else if keycode = K.kKeyCodeDown then
    setInp { s._g.inp with
      dirMask := if pressed ≠ 0 then s._g.inp.dirMask ||| K.kInputDirDown
        else andNot s._g.inp.dirMask K.kInputDirDown } s
  else if keycode = K.kKeyCodeAlt then
    setInp { s._g.inp with altKey := decide (pressed ≠ 0) } s
  else if keycode = K.kKeyCodeShift then
    setInp { s._g.inp with shiftKey := decide (pressed ≠ 0) } s
  else if keycode = K.kKeyCodeCtrl then
    setInp { s._g.inp with ctrlKey := decide (pressed ≠ 0) } s
  else if keycode = K.kKeyCodeSpace then
    setInp { s._g.inp with spaceKey := decide (pressed ≠ 0) } s
  else if keycode = K.kKeyCodeTab then
    setInp { s._g.inp with tabKey := decide (pressed ≠ 0) } s
  else if keycode = K.kKeyCodeEscape then
    setInp { s._g.inp with escapeKey := decide (pressed ≠ 0) } s
  else if keycode = K.kKeyCodeI then
    setInp { s._g.inp with inventoryKey := decide (pressed ≠ 0) } s
  else if keycode = K.kKeyCodeJ then
    setInp { s._g.inp with jumpKey := decide (pressed ≠ 0) } s
  else if keycode = K.kKeyCodeU then
    setInp { s._g.inp with useKey := decide (pressed ≠ 0) } s
  else if keycode = K.kKeyCodeReturn then
    setInp { s._g.inp with enterKey := decide (pressed ≠ 0) } s
  else if keycode = K.kKeyCode1 ∨ keycode = K.kKeyCode2 ∨ keycode = K.kKeyCode3 ∨
      keycode = K.kKeyCode4 ∨ keycode = K.kKeyCode5 then
    setInp { s._g.inp with
      numKeys := s._g.inp.numKeys.set (1 + keycode - K.kKeyCode1).toNat (decide (pressed ≠ 0)) } s
  else if keycode = K.kKeyCodePageUp then
    setInp { s._g.inp with footStepKey := decide (pressed ≠ 0) } s
  else if keycode = K.kKeyCodePageDown then
    setInp { s._g.inp with backStepKey := decide (pressed ≠ 0) } s
  else if keycode = K.kKeyCodeFarNear then
    setInp { s._g.inp with farNear := decide (pressed ≠ 0) } s
  else if keycode = K.kKeyCodeCheatLifeCounter then
    { s with _g := { s._g with _cheats := s._g._cheats ^^^ K.kCheatLifeCounter } }
  else s

/-- The key codes that have a case in the `switch` of `queueKeyInput`. -/
def allCodes (K : KeyCodes) : List Int :=
  [K.kKeyCodeLeft, K.kKeyCodeRight, K.kKeyCodeUp, K.kKeyCodeDown, K.kKeyCodeAlt,
   K.kKeyCodeShift, K.kKeyCodeCtrl, K.kKeyCodeSpace, K.kKeyCodeTab, K.kKeyCodeEscape,
   K.kKeyCodeI, K.kKeyCodeJ, K.kKeyCodeU, K.kKeyCodeReturn, K.kKeyCode1, K.kKeyCode2,
   K.kKeyCode3, K.kKeyCode4, K.kKeyCode5, K.kKeyCodePageUp, K.kKeyCodePageDown,
   K.kKeyCodeFarNear, K.kKeyCodeCheatLifeCounter]

/-- What the headers are taken to guarantee: each direction mask is a single bit, the four
masks differ, and the codes of the five numbered keys follow one another. -/
def WellFormed (K : KeyCodes) : Prop :=
  (∃ k, k < 32 ∧ K.kInputDirLeft = 2 ^ k) ∧ (∃ k, k < 32 ∧ K.kInputDirRight = 2 ^ k) ∧
  (∃ k, k < 32 ∧ K.kInputDirUp = 2 ^ k) ∧ (∃ k, k < 32 ∧ K.kInputDirDown = 2 ^ k) ∧
  [K.kInputDirLeft, K.kInputDirRight, K.kInputDirUp, K.kInputDirDown].Nodup ∧
  K.kKeyCode2 = K.kKeyCode1 + 1 ∧ K.kKeyCode3 = K.kKeyCode1 + 2 ∧
  K.kKeyCode4 = K.kKeyCode1 + 3 ∧ K.kKeyCode5 = K.kKeyCode1 + 4

instance (K : KeyCodes) : Decidable (WellFormed K) := by
  unfold WellFormed
  infer_instance

/-- A place of the input snapshot that a key event can write: one bit of `dirMask`, one named
flag, or one entry of `numKeys`. -/
inductive Loc where
  | dirBit (i : Nat)
  | altKey
  | shiftKey
  | ctrlKey
  | spaceKey
  | tabKey
  | escapeKey
  | inventoryKey
  | jumpKey
  | useKey
  | enterKey
  | numKey (i : Nat)
  | footStepKey
  | backStepKey
  | farNear
  deriving DecidableEq, Repr

/-- The value the snapshot holds at a place. -/
def readLoc (inp : PlayerInput) : Loc → Bool
  | Loc.dirBit i => inp.dirMask.testBit i
  | Loc.altKey => inp.altKey
  | Loc.shiftKey => inp.shiftKey
  | Loc.ctrlKey => inp.ctrlKey
  | Loc.spaceKey => inp.spaceKey
  | Loc.tabKey => inp.tabKey
  | Loc.escapeKey => inp.escapeKey
  | Loc.inventoryKey => inp.inventoryKey
  | Loc.jumpKey => inp.jumpKey
  | Loc.useKey => inp.useKey
  | Loc.enterKey => inp.enterKey
  | Loc.numKey i => inp.numKeys.getD i false
  | Loc.footStepKey => inp.footStepKey
  | Loc.backStepKey => inp.backStepKey
  | Loc.farNear => inp.farNear

/-- The fixed code-to-field mapping, in the spec's words "exactly one bit or boolean field in
the snapshot, selected by a fixed code→field mapping": `keyField K code loc` says that `loc` is
a place assigned to `code`.  The cheat key and unknown codes have no place in the snapshot. -/
def keyField (K : KeyCodes) (code : Int) (loc : Loc) : Prop :=
  if code = K.kKeyCodeLeft then ∃ i, loc = Loc.dirBit i ∧ K.kInputDirLeft.testBit i = true
  else if code = K.kKeyCodeRight then ∃ i, loc = Loc.dirBit i ∧ K.kInputDirRight.testBit i = true
  else if code = K.kKeyCodeUp then ∃ i, loc = Loc.dirBit i ∧ K.kInputDirUp.testBit i = true
  else if code = K.kKeyCodeDown then ∃ i, loc = Loc.dirBit i ∧ K.kInputDirDown.testBit i = true
  else if code = K.kKeyCodeAlt then loc = Loc.altKey
  else if code = K.kKeyCodeShift then loc = Loc.shiftKey
  else if code = K.kKeyCodeCtrl then loc = Loc.ctrlKey
  else if code = K.kKeyCodeSpace then loc = Loc.spaceKey
  else if code = K.kKeyCodeTab then loc = Loc.tabKey
  else if code = K.kKeyCodeEscape then loc = Loc.escapeKey
  else if code = K.kKeyCodeI then loc = Loc.inventoryKey
  else if code = K.kKeyCodeJ then loc = Loc.jumpKey
  else if code = K.kKeyCodeU then loc = Loc.useKey
  else if code = K.kKeyCodeReturn then loc = Loc.enterKey
  else if code = K.kKeyCode1 ∨ code = K.kKeyCode2 ∨ code = K.kKeyCode3 ∨
      code = K.kKeyCode4 ∨ code = K.kKeyCode5 then
    loc = Loc.numKey (1 + code - K.kKeyCode1).toNat
  else if code = K.kKeyCodePageUp then loc = Loc.footStepKey
  else if code = K.kKeyCodePageDown then loc = Loc.backStepKey
  else if code = K.kKeyCodeFarNear then loc = Loc.farNear
  else False

/-- The place assigned to a key code is released in a snapshot: it reads `false`. -/
def released (K : KeyCodes) (code : Int) (inp : PlayerInput) : Prop :=
  ∀ loc, keyField K code loc → readLoc inp loc = false

/-- Sample values for the header constants. -/
def keys0 : KeyCodes :=
  { kKeyCodeLeft := 1, kKeyCodeRight := 2, kKeyCodeUp := 3, kKeyCodeDown := 4,
    kKeyCodeAlt := 5, kKeyCodeShift := 6, kKeyCodeCtrl := 7, kKeyCodeSpace := 8,
    kKeyCodeTab := 9, kKeyCodeEscape := 10, kKeyCodeI := 11, kKeyCodeJ := 12,
    kKeyCodeU := 13, kKeyCodeReturn := 14, kKeyCode1 := 15, kKeyCode2 := 16,
    kKeyCode3 := 17, kKeyCode4 := 18, kKeyCode5 := 19, kKeyCodePageUp := 20,
    kKeyCodePageDown := 21, kKeyCodeFarNear := 22, kKeyCodeCheatLifeCounter := 23,
    kInputDirLeft := 1, kInputDirRight := 2, kInputDirUp := 4, kInputDirDown := 8,
    kCheatLifeCounter := 1 }

/-- Write a value at a place of the snapshot: set or clear one bit of `dirMask`, assign one
named flag, or assign one entry of `numKeys`. -/
def writeLoc (inp : PlayerInput) (loc : Loc) (b : Bool) : PlayerInput :=
  match loc with
  | Loc.dirBit i =>
    { inp with dirMask := if b then inp.dirMask ||| 2 ^ i else andNot inp.dirMask (2 ^ i) }
  | Loc.altKey => { inp with altKey := b }
  | Loc.shiftKey => { inp with shiftKey := b }
  | Loc.ctrlKey => { inp with ctrlKey := b }
  | Loc.spaceKey => { inp with spaceKey := b }
  | Loc.tabKey => { inp with tabKey := b }
  | Loc.escapeKey => { inp with escapeKey := b }
  | Loc.inventoryKey => { inp with inventoryKey := b }
  | Loc.jumpKey => { inp with jumpKey := b }
  | Loc.useKey => { inp with useKey := b }
  | Loc.enterKey => { inp with enterKey := b }
  | Loc.numKey i => { inp with numKeys := inp.numKeys.set i b }
  | Loc.footStepKey => { inp with footStepKey := b }
  | Loc.backStepKey => { inp with backStepKey := b }
  | Loc.farNear => { inp with farNear := b }

/-! ## Start-up and reachable states -/

/-- The method `init` (stub.cpp 367-376) on its successful path, from `_g->_cut._numToPlay = 47`
on.  `g` is the game as `_g->init()` left it, `nextState` the value `setArgs` gave to
`_nextState` (`kStateCutscene`, stub.cpp 185). -/
def init (E : Engine) (nextState : Int) (g : Game) : GameStub_F2B :=
  let s : GameStub_F2B :=
    { _g := { g with _cut := { g._cut with _numToPlay := 47 } },
      _state := -1, _nextState := nextState, _slotState := 0,
      _loadState := false, _saveState := false, log := [] }
  let s := setState E s._nextState s
  { s with _nextState := s._state, _slotState := 0, _loadState := false, _saveState := false }

/-- The states the stub can be in: `init` after `setArgs`, followed by any interleaving of the
methods the platform layer calls, each engine call answering and acting in any way. -/
inductive Reachable (P : Params) (K : KeyCodes) : GameStub_F2B → Prop where
  | start (E : Engine) (g : Game) : Reachable P K (init E kStateCutscene g)
  | tick (E : Engine) (ticks : Nat) {s : GameStub_F2B} :
      Reachable P K s → Reachable P K (doTick P E ticks s)
  | key (keycode pressed : Int) {s : GameStub_F2B} :
      Reachable P K s → Reachable P K (queueKeyInput K keycode pressed s)
  | touch (pointer x y down : Int) {s : GameStub_F2B} :
      Reachable P K s → Reachable P K (queueTouchInput pointer x y down s)
  | save (slot : Int) {s : GameStub_F2B} :
      Reachable P K s → Reachable P K (saveState slot s)
  | load (slot : Int) {s : GameStub_F2B} :
      Reachable P K s → Reachable P K (loadState slot s)
  | draw (E : Engine) {s : GameStub_F2B} :
      Reachable P K s → Reachable P K (drawGL E s)

/-- The five modes other than Installer. -/
def playable (mode : Int) : Prop :=
  mode = kStateCutscene ∨ mode = kStateGame ∨ mode = kStateInventory ∨
  mode = kStateCabinet ∨ mode = kStateMenu

/-- The shape of current and pending mode in every reachable state: the current mode is one of
the five modes other than Installer, and the pending mode is the current one, or Simulation, or
one of the four modes Simulation asks for while Simulation is current. -/
def ModeInvariant (s : GameStub_F2B) : Prop :=
  playable s._state ∧
  (s._nextState = s._state ∨ s._nextState = kStateGame ∨
    (s._state = kStateGame ∧
      (s._nextState = kStateInventory ∨ s._nextState = kStateMenu ∨
       s._nextState = kStateCutscene ∨ s._nextState = kStateCabinet)))

/-- The player skips the clip: `update` reports the end of the clip and leaves the cutscene
interrupted; every other call succeeds and changes nothing. -/
def engineSkip : Engine where
  run := fun c g =>
    match c with
    | Call.cutUpdate _ => (false, { g with _cut := { g._cut with interrupted := true } })
    | _ => (true, g)
  cutLoad_cursor := fun _ _ => ⟨rfl, rfl⟩

/-- A run that asks for the inventory: start, skip the opening clip, enter Simulation with the
inventory key down.  It ends in Simulation mode with Inventory pending. -/
def stubInventoryPending : GameStub_F2B :=
  doTick params0 engineOk 16
    (queueKeyInput keys0 keys0.kKeyCodeI 1
      (doTick params0 engineSkip 16 (init engineOk kStateCutscene game0)))

/-! ## The loop, unfolded -/

theorem chainLen_le (num : Int) : chainLen num ≤ 6 := by
  unfold chainLen
  split_ifs <;> omega

theorem chainLen_next (num : Int) (h : 0 ≤ getNextCutsceneNum num) :
    chainLen (getNextCutsceneNum num) < chainLen num := by
  unfold getNextCutsceneNum at h ⊢
  split_ifs at h ⊢ <;> simp_all [chainLen]

theorem advanceMeasure_body (E : Engine) (s : GameStub_F2B)
    (h : 0 ≤ (advanceBody s)._g._cut._numToPlay) :
    advanceMeasure (invoke E (Call.cutLoad (advanceBody s)._g._cut._numToPlay) (advanceBody s)).2
      < advanceMeasure s := by
  have hc := E.cutLoad_cursor (advanceBody s)._g._cut._numToPlay (advanceBody s)._g
  simp only [advanceMeasure, invoke, hc.1, hc.2]
  cases hq : s._g._cut.playQueue with
  | nil =>
    have hb : (advanceBody s)._g._cut._numToPlay = getNextCutsceneNum s._g._cut._numToPlay := by
      simp [advanceBody, Cutscene.dequeue, hq, setNumToPlay]
    have hq2 : (advanceBody s)._g._cut.playQueue = [] := by
      simp [advanceBody, Cutscene.dequeue, hq, setNumToPlay]
    rw [hb] at h
    have := chainLen_next _ h
    simp [hb, hq2]
    exact this
  | cons q qs =>
    have hq2 : (advanceBody s)._g._cut.playQueue = qs := by
      simp [advanceBody, Cutscene.dequeue, hq, setNumToPlay]
    have := chainLen_le (advanceBody s)._g._cut._numToPlay
    simp only [hq2, List.length_cons]
    omega


theorem advanceLoop_eq (E : Engine) (s : GameStub_F2B) :
    advanceLoop E s =
      if 0 ≤ (advanceBody s)._g._cut._numToPlay then
        if !(invoke E (Call.cutLoad (advanceBody s)._g._cut._numToPlay) (advanceBody s)).1 then
          advanceLoop E
            (invoke E (Call.cutLoad (advanceBody s)._g._cut._numToPlay) (advanceBody s)).2
        else (invoke E (Call.cutLoad (advanceBody s)._g._cut._numToPlay) (advanceBody s)).2
      else advanceBody s := by
  rw [advanceLoop]
  split_ifs <;> rfl

/-- Induction along the iterations of the loop: a relation between the state at loop entry and
the state at loop exit holds as soon as it holds for the three ways an iteration can end. -/
theorem advanceLoop_rel (E : Engine) (R : GameStub_F2B → GameStub_F2B → Prop)
    (hstop : ∀ s, ¬ 0 ≤ (advanceBody s)._g._cut._numToPlay → R s (advanceBody s))
    (hok : ∀ s, 0 ≤ (advanceBody s)._g._cut._numToPlay →
      (invoke E (Call.cutLoad (advanceBody s)._g._cut._numToPlay) (advanceBody s)).1 = true →
      R s (invoke E (Call.cutLoad (advanceBody s)._g._cut._numToPlay) (advanceBody s)).2)
    (hfail : ∀ s t, 0 ≤ (advanceBody s)._g._cut._numToPlay →
      (invoke E (Call.cutLoad (advanceBody s)._g._cut._numToPlay) (advanceBody s)).1 = false →
      R (invoke E (Call.cutLoad (advanceBody s)._g._cut._numToPlay) (advanceBody s)).2 t →
      R s t)
    (s : GameStub_F2B) : R s (advanceLoop E s) := by
  induction s using advanceLoop.induct E with
  | case1 x h hl ih =>
    rw [advanceLoop_eq, if_pos h, if_pos hl]
    exact hfail x _ h (by simpa using hl) ih
  | case2 x h hl =>
    rw [advanceLoop_eq, if_pos h, if_neg hl]
    exact hok x h (by simpa using hl)
  | case3 x h =>
    rw [advanceLoop_eq, if_neg h]
    exact hstop x h

/-! ## Steps that make no mode change -/

theorem Quiet.refl (s : GameStub_F2B) : Quiet s s :=
  ⟨rfl, rfl, rfl, rfl, [], by simp, by simp⟩

theorem Quiet.trans {s t u : GameStub_F2B} (h₁ : Quiet s t) (h₂ : Quiet t u) : Quiet s u := by
  obtain ⟨a1, a2, a3, a4, r1, hr1, hn1⟩ := h₁
  obtain ⟨b1, b2, b3, b4, r2, hr2, hn2⟩ := h₂
  refine ⟨b1.trans a1, b2.trans a2, b3.trans a3, b4.trans a4, r1 ++ r2, ?_, ?_⟩
  · rw [hr2, hr1, List.append_assoc]
  · intro c hc
    rcases List.mem_append.1 hc with h | h
    · exact hn1 c h
    · exact hn2 c h

theorem Quiet.invoke {s t : GameStub_F2B} (E : Engine) (c : Call) (hc : isSetState c = false)
    (h : Quiet s t) : Quiet s (invoke E c t).2 :=
  h.trans ⟨rfl, rfl, rfl, rfl, [c], rfl, by simpa using hc⟩

theorem Quiet.note {s t : GameStub_F2B} (c : Call) (hc : isSetState c = false)
    (h : Quiet s t) : Quiet s (note c t) :=
  h.trans ⟨rfl, rfl, rfl, rfl, [c], rfl, by simpa using hc⟩

theorem Quiet.update {s t : GameStub_F2B} (g : Game) (next : Int) (h : Quiet s t) :
    Quiet s { t with _g := g, _nextState := next } :=
  h.trans ⟨rfl, rfl, rfl, rfl, [], by simp, by simp⟩

theorem Quiet.ite {s a b : GameStub_F2B} (c : Prop) [Decidable c]
    (ha : Quiet s a) (hb : Quiet s b) : Quiet s (if c then a else b) := by
  split_ifs
  · exact ha
  · exact hb

theorem tickGame_quiet (E : Engine) (s : GameStub_F2B) : Quiet s (tickGame E s) := by
  unfold tickGame
  dsimp only
  repeat' first
    | exact Quiet.refl _
    | apply Quiet.ite
    | apply Quiet.update
    | apply Quiet.invoke _ _ (by rfl)

theorem advanceBody_quiet (s : GameStub_F2B) : Quiet s (advanceBody s) := by
  unfold advanceBody setNumToPlay
  dsimp only
  exact Quiet.update _ _ (Quiet.refl s)

theorem advanceLoop_quiet (E : Engine) (s : GameStub_F2B) : Quiet s (advanceLoop E s) := by
  refine advanceLoop_rel E Quiet ?_ ?_ ?_ s
  · intro s _
    exact advanceBody_quiet s
  · intro s _ _
    exact Quiet.invoke E _ (by rfl) (advanceBody_quiet s)
  · intro s t _ _ h
    exact (Quiet.invoke E _ (by rfl) (advanceBody_quiet s)).trans h

theorem advance_quiet (E : Engine) (s : GameStub_F2B) : Quiet s (advance E s) := by
  unfold advance
  split_ifs
  · exact advanceLoop_quiet E s
  · exact Quiet.update _ _ (Quiet.refl s)

theorem tickCutscene_quiet (P : Params) (E : Engine) (ticks : Nat) (s : GameStub_F2B) :
    Quiet s (tickCutscene P E ticks s) := by
  have h1 : Quiet s (invoke E (Call.cutUpdate ticks) s).2 :=
    Quiet.invoke E _ (by rfl) (Quiet.refl s)
  have h2 := (Quiet.invoke E Call.cutUnload (by rfl) h1).trans (advance_quiet E _)
  unfold tickCutscene
  dsimp only
  repeat' first
    | exact h1
    | exact h2
    | apply Quiet.ite
    | apply Quiet.update
    | apply Quiet.invoke _ _ (by rfl)

theorem tickInventory_quiet (E : Engine) (s : GameStub_F2B) : Quiet s (tickInventory E s) := by
  unfold tickInventory
  dsimp only
  repeat' first
    | exact Quiet.refl _
    | apply Quiet.ite
    | apply Quiet.update
    | apply Quiet.invoke _ _ (by rfl)

theorem tickCabinet_quiet (E : Engine) (s : GameStub_F2B) : Quiet s (tickCabinet E s) := by
  unfold tickCabinet
  dsimp only
  repeat' first
    | exact Quiet.refl _
    | apply Quiet.ite
    | apply Quiet.update
    | apply Quiet.invoke _ _ (by rfl)

theorem tickMenu_quiet (E : Engine) (s : GameStub_F2B) : Quiet s (tickMenu E s) := by
  unfold tickMenu
  dsimp only
  repeat' first
    | exact Quiet.refl _
    | apply Quiet.ite
    | apply Quiet.update
    | apply Quiet.invoke _ _ (by rfl)

theorem tickInstaller_quiet (E : Engine) (s : GameStub_F2B) : Quiet s (tickInstaller E s) :=
  Quiet.invoke E _ (by rfl) (Quiet.refl s)

theorem dispatch_quiet (P : Params) (E : Engine) (ticks : Nat) (s : GameStub_F2B) :
    Quiet s (dispatch P E ticks s) := by
  unfold dispatch
  repeat' first
    | exact Quiet.refl _
    | exact tickCutscene_quiet P E ticks s
    | exact tickGame_quiet E s
    | exact tickInventory_quiet E s
    | exact tickCabinet_quiet E s
    | exact tickMenu_quiet E s
    | exact tickInstaller_quiet E s
    | apply Quiet.ite

theorem clearPointers_quiet (s : GameStub_F2B) : Quiet s (clearPointers s) :=
  Quiet.update _ _ (Quiet.refl s)

/-! ## The head of the tick -/

theorem release_log (E : Engine) (s : GameStub_F2B) :
    (release E s).log = s.log ++ specExitEffects s._state := by
  unfold release specExitEffects
  split_ifs <;> simp [note, invoke]

theorem release_fields (E : Engine) (s : GameStub_F2B) :
    (release E s)._state = s._state ∧ (release E s)._nextState = s._nextState ∧
    (release E s)._slotState = s._slotState ∧ (release E s)._loadState = s._loadState ∧
    (release E s)._saveState = s._saveState := by
  unfold release
  split_ifs <;> simp [note, invoke]

theorem setState_log (E : Engine) (state : Int) (s : GameStub_F2B) :
    (setState E state s).log =
      s.log ++ Call.setState state ::
        (specExitEffects s._state ++
          specEnterEffects state (release E (note (Call.setState state) s))._g._cut._numToPlay) := by
  unfold setState specEnterEffects
  dsimp only
  split_ifs <;> simp [invoke, release_log, note]

theorem setState_state (E : Engine) (state : Int) (s : GameStub_F2B) :
    (setState E state s)._state =
      if state = kStateInventory ∧
          (invoke E Call.initInventory (release E (note (Call.setState state) s))).1 = false
      then s._state else state := by
  by_cases h : state = kStateInventory
  · subst h
    cases hr : (invoke E Call.initInventory
        (release E (note (Call.setState kStateInventory) s))).1 <;>
      simp only [invoke, note, kStateInventory] at hr <;>
      simp [setState, hr, release_fields, note, invoke, kStateCutscene, kStateGame,
        kStateInventory]
  · rw [if_neg (fun hc => h hc.1)]
    unfold setState
    dsimp only
    split_ifs <;> simp [invoke]

theorem setState_requests (E : Engine) (state : Int) (s : GameStub_F2B) :
    (setState E state s)._slotState = s._slotState ∧
    (setState E state s)._loadState = s._loadState ∧
    (setState E state s)._saveState = s._saveState := by
  unfold setState
  dsimp only
  split_ifs <;> simp [invoke, release_fields, note]

theorem transition_same (E : Engine) (s : GameStub_F2B) (h : s._nextState = s._state) :
    transition E s = s := by
  unfold transition
  cases s
  simp_all

theorem transition_log (E : Engine) (s : GameStub_F2B) :
    (transition E s).log = s.log ++ specTransitionEffects E s := by
  unfold transition specTransitionEffects
  by_cases h : s._nextState = s._state
  · simp [h]
  · simp [h, setState_log]

theorem transition_state (E : Engine) (s : GameStub_F2B) :
    (transition E s)._state = if enterRefused E s then s._state else s._nextState := by
  unfold transition enterRefused
  by_cases h : s._nextState = s._state
  · simp [h]
  · simp only [ne_eq, h, not_false_eq_true, if_true, setState_state]
    by_cases h2 : s._nextState = kStateInventory <;> simp [h2]

theorem transition_requests (E : Engine) (s : GameStub_F2B) :
    (transition E s)._slotState = s._slotState ∧
    (transition E s)._loadState = s._loadState ∧
    (transition E s)._saveState = s._saveState := by
  unfold transition
  by_cases h : s._nextState = s._state
  · simp [h]
  · simp [h, setState_requests]

theorem transitionEffects_count (E : Engine) (s : GameStub_F2B) :
    (specTransitionEffects E s).countP isSetState = if s._nextState = s._state then 0 else 1 := by
  unfold specTransitionEffects specExitEffects specEnterEffects
  split_ifs <;> simp [isSetState, List.countP_cons]

theorem dispatch_eq_modeUpdate (P : Params) (E : Engine) (ticks : Nat) (s : GameStub_F2B) :
    dispatch P E ticks s = modeUpdate P E ticks s._state s := by
  unfold dispatch modeUpdate
  split_ifs <;> rfl

theorem doTick_quiet (P : Params) (E : Engine) (ticks : Nat) (s : GameStub_F2B) :
    Quiet (transition E s) (doTick P E ticks s) :=
  (dispatch_quiet P E ticks _).trans (clearPointers_quiet _)

/-! ## C1 -/

/-- C1: on every tick the head of `doTick` makes exactly the calls a pending mode change owes:
none when pending equals current, and otherwise one `setState` whose exit effects (of the
current mode) and enter effects (of the pending mode) each appear once, ahead of everything the
dispatched update calls; current becomes the pending mode unless the enter effect refused,
pending equals current when the update is dispatched, and the rest of the tick makes no
further `setState` call. -/
theorem doTick_transition_effects_once (P : Params) (E : Engine) (ticks : Nat)
    (s : GameStub_F2B) :
    (transition E s).log = s.log ++ specTransitionEffects E s ∧
    (specTransitionEffects E s).countP isSetState = (if s._nextState = s._state then 0 else 1) ∧
    (transition E s)._state = (if enterRefused E s then s._state else s._nextState) ∧
    (transition E s)._nextState = (transition E s)._state ∧
    doTick P E ticks s =
      clearPointers (modeUpdate P E ticks (transition E s)._state (transition E s)) ∧
    (∃ rest, (doTick P E ticks s).log = s.log ++ specTransitionEffects E s ++ rest ∧
      ∀ c ∈ rest, isSetState c = false) ∧
    (doTick P E ticks s).log.countP isSetState
      = s.log.countP isSetState + (if s._nextState = s._state then 0 else 1) := by
  obtain ⟨rest, h1, h2⟩ := (doTick_quiet P E ticks s).log_ext
  have hrest : rest.countP isSetState = 0 := by
    rw [List.countP_eq_zero]
    intro c hc
    simp [h2 c hc]
  refine ⟨transition_log E s, transitionEffects_count E s, transition_state E s, rfl, ?_,
    ⟨rest, by rw [h1, transition_log], h2⟩, ?_⟩
  · rw [← dispatch_eq_modeUpdate]
    rfl
  · rw [h1, transition_log, List.countP_append, List.countP_append, hrest,
      transitionEffects_count]
    rfl

/-! ## C2 -/

/-- C2 (as stated, refuted): Simulation mode with Inventory pending, `initInventory()` answering
false and the inventory key down again when the update runs: after the tick the current mode is
still Simulation, but pending is Inventory, not Simulation. -/
theorem refused_inventory_stays_pending :
    stubInventoryKey._nextState = kStateInventory ∧
    (invoke engineNoInventory Call.initInventory
      (release engineNoInventory
        (note (Call.setState kStateInventory) stubInventoryKey))).1 = false ∧
    (doTick params0 engineNoInventory 16 stubInventoryKey)._state = stubInventoryKey._state ∧
    (doTick params0 engineNoInventory 16 stubInventoryKey)._nextState = kStateInventory ∧
    (doTick params0 engineNoInventory 16 stubInventoryKey)._nextState
      ≠ stubInventoryKey._state := by
  decide

/-- C2 (amended): when Inventory is pending and `initInventory()` answers false, the current
mode is unchanged by the tick, pending equals current when the update is dispatched, and the
update that runs is the one of the current mode; what is pending after the tick is left to that
update. -/
theorem doTick_inventory_refused (P : Params) (E : Engine) (ticks : Nat) (s : GameStub_F2B)
    (hpend : s._nextState = kStateInventory)
    (hfail : (invoke E Call.initInventory
      (release E (note (Call.setState kStateInventory) s))).1 = false) :
    (transition E s)._state = s._state ∧
    (transition E s)._nextState = s._state ∧
    (doTick P E ticks s)._state = s._state ∧
    doTick P E ticks s = clearPointers (modeUpdate P E ticks s._state (transition E s)) := by
  have href : enterRefused E s = true := by
    simp [enterRefused, hpend, hfail]
  have hst : (transition E s)._state = s._state := by
    rw [transition_state, href]
    rfl
  refine ⟨hst, hst, ?_, ?_⟩
  · rw [(doTick_quiet P E ticks s).state_eq, hst]
  · rw [← hst, ← dispatch_eq_modeUpdate]
    rfl

theorem doTick_inventory_refused_witness :
    (doTick params0 engineNoInventory 16 stubInventoryKey)._state = kStateGame ∧
    doTick params0 engineNoInventory 16 stubInventoryKey =
      clearPointers (modeUpdate params0 engineNoInventory 16 kStateGame
        (transition engineNoInventory stubInventoryKey)) :=
  have h := doTick_inventory_refused params0 engineNoInventory 16 stubInventoryKey
    (by decide) (by decide)
  ⟨h.2.2.1, h.2.2.2⟩

/-! ## Deferred save and load -/

theorem doTick_requests (P : Params) (E : Engine) (ticks : Nat) (s : GameStub_F2B) :
    (doTick P E ticks s)._slotState = s._slotState ∧
    (doTick P E ticks s)._loadState = s._loadState ∧
    (doTick P E ticks s)._saveState = s._saveState := by
  have hq := doTick_quiet P E ticks s
  have ht := transition_requests E s
  exact ⟨hq.slot_eq.trans ht.1, hq.load_eq.trans ht.2.1, hq.save_eq.trans ht.2.2⟩

theorem runTicks_requests (P : Params) (run : List (Engine × Nat)) (s : GameStub_F2B) :
    (runTicks P run s)._slotState = s._slotState ∧
    (runTicks P run s)._loadState = s._loadState ∧
    (runTicks P run s)._saveState = s._saveState := by
  induction run generalizing s with
  | nil => exact ⟨rfl, rfl, rfl⟩
  | cons et rest ih =>
    obtain ⟨E, ticks⟩ := et
    have h := doTick_requests P E ticks s
    have h2 := ih (doTick P E ticks s)
    exact ⟨h2.1.trans h.1, h2.2.1.trans h.2.1, h2.2.2.trans h.2.2⟩

theorem drainLoad_fields (E : Engine) (s : GameStub_F2B) :
    (drainLoad E s)._state = s._state ∧ (drainLoad E s)._slotState = s._slotState ∧
    (drainLoad E s)._saveState = s._saveState ∧ (drainLoad E s)._loadState = false := by
  unfold drainLoad
  dsimp only
  split_ifs <;> simp_all [invoke]

theorem drainSave_fields (E : Engine) (s : GameStub_F2B) :
    (drainSave E s)._state = s._state ∧ (drainSave E s)._slotState = s._slotState ∧
    (drainSave E s)._loadState = s._loadState ∧ (drainSave E s)._saveState = false := by
  unfold drainSave
  dsimp only
  split_ifs <;> simp_all [invoke]

theorem drainLoad_log (E : Engine) (s : GameStub_F2B) :
    (drainLoad E s).log.filter isSave = s.log.filter isSave ∧
    (drainLoad E s).log.filter isStorage =
      s.log.filter isStorage ++
        (if s._loadState = true ∧ s._state = kStateGame then [Call.loadGameState s._slotState]
         else []) := by
  unfold drainLoad
  dsimp only
  split_ifs <;> simp_all [invoke, List.filter_append, isSave, isStorage]

theorem drainSave_log (E : Engine) (s : GameStub_F2B) :
    (drainSave E s).log.filter isSave =
      s.log.filter isSave ++
        (if s._saveState = true ∧ s._state = kStateGame then [Call.saveGameState s._slotState]
         else []) ∧
    (drainSave E s).log.filter isStorage =
      s.log.filter isStorage ++
        (if s._saveState = true ∧ s._state = kStateGame then [Call.saveGameState s._slotState]
         else []) := by
  unfold drainSave
  dsimp only
  split_ifs <;> simp_all [invoke, List.filter_append, isSave, isStorage]

theorem drawGL_flags (E : Engine) (s : GameStub_F2B) :
    (drawGL E s)._loadState = false ∧ (drawGL E s)._saveState = false := by
  unfold drawGL
  have h1 := drainLoad_fields E (note Call.renderDrawOverlay s)
  have h2 := drainSave_fields E (drainLoad E (note Call.renderDrawOverlay s))
  exact ⟨h2.2.2.1.trans h1.2.2.2, h2.2.2.2⟩

theorem drawGL_save_calls (E : Engine) (s : GameStub_F2B) :
    (drawGL E s).log.filter isSave =
      s.log.filter isSave ++
        (if s._saveState = true ∧ s._state = kStateGame then [Call.saveGameState s._slotState]
         else []) := by
  unfold drawGL
  have h1 := drainLoad_fields E (note Call.renderDrawOverlay s)
  rw [(drainSave_log E _).1, (drainLoad_log E _).1, h1.1, h1.2.1, h1.2.2.1]
  simp [note, List.filter_append, isSave]

theorem drawGL_storage_calls (E : Engine) (s : GameStub_F2B) (hg : s._state = kStateGame)
    (hl : s._loadState = true) (hs : s._saveState = true) :
    (drawGL E s).log.filter isStorage =
      s.log.filter isStorage ++
        [Call.loadGameState s._slotState, Call.saveGameState s._slotState] := by
  unfold drawGL
  have h1 := drainLoad_fields E (note Call.renderDrawOverlay s)
  rw [(drainSave_log E _).2, (drainLoad_log E _).2, h1.1, h1.2.1, h1.2.2.1]
  simp [note, List.filter_append, isStorage, hg, hl, hs]

/-! ## C3 -/

/-- C3 (as stated, refuted): `saveState(3)` then `drawGL` in Inventory mode leaves no save
pending, and after the two ticks that bring the stub back to Simulation mode the next `drawGL`
calls the save collaborator not at all. -/
theorem drawGL_outside_game_drops_save :
    (drawGL engineOk (saveState 3 stubClosingInventory))._saveState = false ∧
    (runTicks params0 [(engineOk, 16), (engineOk, 16)]
      (drawGL engineOk (saveState 3 stubClosingInventory)))._state = kStateGame ∧
    (drawGL engineOk (runTicks params0 [(engineOk, 16), (engineOk, 16)]
      (drawGL engineOk (saveState 3 stubClosingInventory)))).log.filter isSave = [] := by
  decide

/-- C3 (amended): `drawGL` right after `saveState(slot)` always clears the pending flag, and it
calls the save collaborator, once and for `slot`, exactly when the current mode is Simulation;
outside Simulation the request is dropped: whatever ticks follow, the flag stays clear and the
next `drawGL` makes no save call. -/
theorem drawGL_serves_save_only_in_game (P : Params) (E E' : Engine)
    (run : List (Engine × Nat)) (slot : Int) (s : GameStub_F2B) :
    (drawGL E (saveState slot s))._saveState = false ∧
    (drawGL E (saveState slot s)).log.filter isSave =
      s.log.filter isSave ++ (if s._state = kStateGame then [Call.saveGameState slot] else []) ∧
    (runTicks P run (drawGL E (saveState slot s)))._saveState = false ∧
    (drawGL E' (runTicks P run (drawGL E (saveState slot s)))).log.filter isSave =
      (runTicks P run (drawGL E (saveState slot s))).log.filter isSave := by
  have hf := (drawGL_flags E (saveState slot s)).2
  have hr := (runTicks_requests P run (drawGL E (saveState slot s))).2.2.trans hf
  refine ⟨hf, ?_, hr, ?_⟩
  · rw [drawGL_save_calls]
    simp [saveState]
  · rw [drawGL_save_calls, hr]
    simp

/-! ## C4 -/

/-- C4 (as stated, refuted): Simulation mode, `saveState(1)` then `loadState(2)`: both requests
are pending, and the next `drawGL` loads from slot 2 and saves to slot 2; slot 1 is never
saved. -/
theorem drawGL_save_uses_load_slot :
    (loadState 2 (saveState 1 (stubIn kStateGame 47)))._saveState = true ∧
    (loadState 2 (saveState 1 (stubIn kStateGame 47)))._loadState = true ∧
    (drawGL engineOk (loadState 2 (saveState 1 (stubIn kStateGame 47)))).log.filter isStorage =
      [Call.loadGameState 2, Call.saveGameState 2] ∧
    Call.saveGameState 1 ∉
      (drawGL engineOk (loadState 2 (saveState 1 (stubIn kStateGame 47)))).log := by
  decide

/-- C4 (amended): a save request and a load request can be pending together, but they share
the one slot number of the stub: in Simulation mode the next `drawGL` loads from and then saves
to the slot of whichever request was made last. -/
theorem drawGL_requests_share_slot (E : Engine) (a b : Int) (s : GameStub_F2B)
    (hg : s._state = kStateGame) :
    ((loadState b (saveState a s))._saveState = true ∧
      (loadState b (saveState a s))._loadState = true ∧
      (drawGL E (loadState b (saveState a s))).log.filter isStorage =
        s.log.filter isStorage ++ [Call.loadGameState b, Call.saveGameState b]) ∧
    ((saveState a (loadState b s))._saveState = true ∧
      (saveState a (loadState b s))._loadState = true ∧
      (drawGL E (saveState a (loadState b s))).log.filter isStorage =
        s.log.filter isStorage ++ [Call.loadGameState a, Call.saveGameState a]) := by
  refine ⟨⟨rfl, rfl, ?_⟩, ⟨rfl, rfl, ?_⟩⟩
  · exact drawGL_storage_calls E _ hg rfl rfl
  · exact drawGL_storage_calls E _ hg rfl rfl

theorem drawGL_requests_share_slot_witness :
    (drawGL engineOk (loadState 2 (saveState 1 (stubIn kStateGame 47)))).log.filter isStorage =
      (stubIn kStateGame 47).log.filter isStorage ++
        [Call.loadGameState 2, Call.saveGameState 2] :=
  (drawGL_requests_share_slot engineOk 1 2 (stubIn kStateGame 47) (by decide)).1.2.2

/-! ## The sequencing step -/

theorem advanceBody_nil (s : GameStub_F2B) (hq : s._g._cut.playQueue = []) :
    advanceBody s = setNumToPlay (getNextCutsceneNum s._g._cut._numToPlay) s := by
  simp [advanceBody, Cutscene.dequeue, hq]

theorem advanceBody_cons (s : GameStub_F2B) (q : Int) (qs : List Int)
    (hq : s._g._cut.playQueue = q :: qs) :
    (advanceBody s)._g._cut._numToPlay
        = (if q < 0 then getNextCutsceneNum s._g._cut._numToPlay else q) ∧
    (advanceBody s)._g._cut.playQueue = qs ∧
    (advanceBody s).log = s.log := by
  simp [advanceBody, Cutscene.dequeue, hq, setNumToPlay]

theorem advanceLoop_stop (E : Engine) (s : GameStub_F2B)
    (h : (advanceBody s)._g._cut._numToPlay < 0) : advanceLoop E s = advanceBody s := by
  rw [advanceLoop_eq, if_neg (not_le.2 h)]

theorem advanceLoop_ok (E : Engine) (s : GameStub_F2B)
    (h : 0 ≤ (advanceBody s)._g._cut._numToPlay)
    (hl : (E.run (Call.cutLoad (advanceBody s)._g._cut._numToPlay) (advanceBody s)._g).1
      = true) :
    advanceLoop E s
      = (invoke E (Call.cutLoad (advanceBody s)._g._cut._numToPlay) (advanceBody s)).2 := by
  rw [advanceLoop_eq, if_pos h, if_neg]
  simpa [invoke] using hl

theorem advanceLoop_fail (E : Engine) (s : GameStub_F2B)
    (h : 0 ≤ (advanceBody s)._g._cut._numToPlay)
    (hl : (E.run (Call.cutLoad (advanceBody s)._g._cut._numToPlay) (advanceBody s)._g).1
      = false) :
    advanceLoop E s = advanceLoop E
      (invoke E (Call.cutLoad (advanceBody s)._g._cut._numToPlay) (advanceBody s)).2 := by
  rw [advanceLoop_eq, if_pos h, if_pos]
  simpa [invoke] using hl

theorem invoke_cutLoad_cursor (E : Engine) (num : Int) (s : GameStub_F2B) :
    (invoke E (Call.cutLoad num) s).2._g._cut._numToPlay = s._g._cut._numToPlay ∧
    (invoke E (Call.cutLoad num) s).2._g._cut.playQueue = s._g._cut.playQueue :=
  E.cutLoad_cursor num s._g

theorem getNextCutsceneNum_neg (num : Int) (h : getNextCutsceneNum num < 0) :
    getNextCutsceneNum num = -1 := by
  unfold getNextCutsceneNum at h ⊢
  split_ifs at h ⊢ <;> first | rfl | omega

/-- With nothing queued and a cursor that was not interrupted, one advance moves the cursor to
its table successor, provided that successor (when there is one) loads. -/
theorem advance_table (E : Engine) (s : GameStub_F2B)
    (hq : s._g._cut.playQueue = []) (hi : s._g._cut.interrupted = false)
    (hl : 0 ≤ getNextCutsceneNum s._g._cut._numToPlay →
      (E.run (Call.cutLoad (getNextCutsceneNum s._g._cut._numToPlay))
        (setNumToPlay (getNextCutsceneNum s._g._cut._numToPlay) s)._g).1 = true) :
    (advance E s)._g._cut._numToPlay = getNextCutsceneNum s._g._cut._numToPlay ∧
    (advance E s)._g._cut.playQueue = [] := by
  have hb := advanceBody_nil s hq
  have hc : (advanceBody s)._g._cut._numToPlay = getNextCutsceneNum s._g._cut._numToPlay := by
    rw [hb]; rfl
  have hbq : (advanceBody s)._g._cut.playQueue = [] := by
    rw [hb]; exact hq
  unfold advance
  simp only [Cutscene.isInterrupted, hi, Bool.not_false, if_true]
  by_cases h : 0 ≤ getNextCutsceneNum s._g._cut._numToPlay
  · rw [advanceLoop_ok E s (by rw [hc]; exact h) (by rw [hc, hb]; exact hl h)]
    have hf := invoke_cutLoad_cursor E (advanceBody s)._g._cut._numToPlay (advanceBody s)
    exact ⟨hf.1.trans hc, hf.2.trans hbq⟩
  · rw [advanceLoop_stop E s (by rw [hc]; exact not_le.1 h)]
    exact ⟨hc, hbq⟩

/-! ## C5 -/

/-- C5 (as stated, refuted): with nothing queued, a cursor that was not interrupted and every
load succeeding, the advance that follows clip 53 yields clip 29, not "none". -/
theorem advance_after_53_yields_29 :
    (stubIn kStateCutscene 53)._g._cut.playQueue = [] ∧
    (stubIn kStateCutscene 53)._g._cut.interrupted = false ∧
    (∀ n g, (engineOk.run (Call.cutLoad n) g).1 = true) ∧
    (advance engineOk (stubIn kStateCutscene 53))._g._cut._numToPlay = 29 ∧
    (advance engineOk (stubIn kStateCutscene 53))._g._cut._numToPlay ≠ -1 := by
  have h := (advance_table engineOk (stubIn kStateCutscene 53) rfl rfl (fun _ => rfl)).1
  have h29 : getNextCutsceneNum (stubIn kStateCutscene 53)._g._cut._numToPlay = 29 := by decide
  rw [h29] at h
  refine ⟨rfl, rfl, fun _ _ => rfl, h, ?_⟩
  rw [h]
  decide

/-- C5 (amended): with nothing queued, a cursor that was not interrupted and every load
succeeding, an advance leaves the queue empty and takes the cursor from 47 to 39, from 39 to
13, from 13 to 37, from 37 to 53, from 53 to 29, and from 29 to "none" (`-1`). -/
theorem advance_opening_chain (E : Engine)
    (hload : ∀ n g, (E.run (Call.cutLoad n) g).1 = true) (s : GameStub_F2B)
    (hq : s._g._cut.playQueue = []) (hi : s._g._cut.interrupted = false) :
    (advance E s)._g._cut.playQueue = [] ∧
    (s._g._cut._numToPlay = 47 → (advance E s)._g._cut._numToPlay = 39) ∧
    (s._g._cut._numToPlay = 39 → (advance E s)._g._cut._numToPlay = 13) ∧
    (s._g._cut._numToPlay = 13 → (advance E s)._g._cut._numToPlay = 37) ∧
    (s._g._cut._numToPlay = 37 → (advance E s)._g._cut._numToPlay = 53) ∧
    (s._g._cut._numToPlay = 53 → (advance E s)._g._cut._numToPlay = 29) ∧
    (s._g._cut._numToPlay = 29 → (advance E s)._g._cut._numToPlay = -1) := by
  have h := advance_table E s hq hi (fun _ => hload _ _)
  refine ⟨h.2, ?_, ?_, ?_, ?_, ?_, ?_⟩ <;> intro hc <;> rw [h.1, hc] <;> decide

theorem advance_opening_chain_witness :
    (advance engineOk (stubIn kStateCutscene 47))._g._cut._numToPlay = 39 ∧
    (advance engineOk (stubIn kStateCutscene 39))._g._cut._numToPlay = 13 ∧
    (advance engineOk (stubIn kStateCutscene 13))._g._cut._numToPlay = 37 ∧
    (advance engineOk (stubIn kStateCutscene 37))._g._cut._numToPlay = 53 ∧
    (advance engineOk (stubIn kStateCutscene 53))._g._cut._numToPlay = 29 ∧
    (advance engineOk (stubIn kStateCutscene 29))._g._cut._numToPlay = -1 :=
  ⟨(advance_opening_chain engineOk (fun _ _ => rfl) (stubIn kStateCutscene 47) rfl rfl).2.1 rfl,
   (advance_opening_chain engineOk (fun _ _ => rfl) (stubIn kStateCutscene 39) rfl rfl).2.2.1 rfl,
   (advance_opening_chain engineOk (fun _ _ => rfl) (stubIn kStateCutscene 13) rfl
      rfl).2.2.2.1 rfl,
   (advance_opening_chain engineOk (fun _ _ => rfl) (stubIn kStateCutscene 37) rfl
      rfl).2.2.2.2.1 rfl,
   (advance_opening_chain engineOk (fun _ _ => rfl) (stubIn kStateCutscene 53) rfl
      rfl).2.2.2.2.2.1 rfl,
   (advance_opening_chain engineOk (fun _ _ => rfl) (stubIn kStateCutscene 29) rfl
      rfl).2.2.2.2.2.2 rfl⟩

/-! ## C6 -/

/-- C6 (as stated, refuted): with nothing queued, a cursor that was not interrupted and every
load succeeding, the chain from clip 48 reaches 44 and then 13, and the advance that follows
clip 13 yields clip 37, not "none". -/
theorem advance_after_13_yields_37 :
    (∀ n g, (engineOk.run (Call.cutLoad n) g).1 = true) ∧
    (advance engineOk (stubIn kStateCutscene 48))._g._cut._numToPlay = 44 ∧
    (advance engineOk (stubIn kStateCutscene 44))._g._cut._numToPlay = 13 ∧
    (stubIn kStateCutscene 13)._g._cut.playQueue = [] ∧
    (stubIn kStateCutscene 13)._g._cut.interrupted = false ∧
    (advance engineOk (stubIn kStateCutscene 13))._g._cut._numToPlay = 37 ∧
    (advance engineOk (stubIn kStateCutscene 13))._g._cut._numToPlay ≠ -1 := by
  have h48 := (advance_table engineOk (stubIn kStateCutscene 48) rfl rfl (fun _ => rfl)).1
  have h44 := (advance_table engineOk (stubIn kStateCutscene 44) rfl rfl (fun _ => rfl)).1
  have h13 := (advance_table engineOk (stubIn kStateCutscene 13) rfl rfl (fun _ => rfl)).1
  have e48 : getNextCutsceneNum (stubIn kStateCutscene 48)._g._cut._numToPlay = 44 := by decide
  have e44 : getNextCutsceneNum (stubIn kStateCutscene 44)._g._cut._numToPlay = 13 := by decide
  have e13 : getNextCutsceneNum (stubIn kStateCutscene 13)._g._cut._numToPlay = 37 := by decide
  rw [e48] at h48
  rw [e44] at h44
  rw [e13] at h13
  refine ⟨fun _ _ => rfl, h48, h44, rfl, rfl, h13, ?_⟩
  rw [h13]
  decide

/-- C6 (amended): with nothing queued, a cursor that was not interrupted and every load
succeeding, an advance leaves the queue empty and takes the cursor from 48 to 44 and from 44 to
13; from clip 13 the chain goes on as the opening sequence does, to 37, then 53, then 29, and
only then to "none" (`-1`). -/
theorem advance_ending_chain (E : Engine)
    (hload : ∀ n g, (E.run (Call.cutLoad n) g).1 = true) (s : GameStub_F2B)
    (hq : s._g._cut.playQueue = []) (hi : s._g._cut.interrupted = false) :
    (advance E s)._g._cut.playQueue = [] ∧
    (s._g._cut._numToPlay = 48 → (advance E s)._g._cut._numToPlay = 44) ∧
    (s._g._cut._numToPlay = 44 → (advance E s)._g._cut._numToPlay = 13) ∧
    (s._g._cut._numToPlay = 13 → (advance E s)._g._cut._numToPlay = 37) ∧
    (s._g._cut._numToPlay = 37 → (advance E s)._g._cut._numToPlay = 53) ∧
    (s._g._cut._numToPlay = 53 → (advance E s)._g._cut._numToPlay = 29) ∧
    (s._g._cut._numToPlay = 29 → (advance E s)._g._cut._numToPlay = -1) := by
  have h := advance_table E s hq hi (fun _ => hload _ _)
  refine ⟨h.2, ?_, ?_, ?_, ?_, ?_, ?_⟩ <;> intro hc <;> rw [h.1, hc] <;> decide

theorem advance_ending_chain_witness :
    (advance engineOk (stubIn kStateCutscene 48))._g._cut._numToPlay = 44 ∧
    (advance engineOk (stubIn kStateCutscene 44))._g._cut._numToPlay = 13 ∧
    (advance engineOk (stubIn kStateCutscene 13))._g._cut._numToPlay = 37 :=
  ⟨(advance_ending_chain engineOk (fun _ _ => rfl) (stubIn kStateCutscene 48) rfl rfl).2.1 rfl,
   (advance_ending_chain engineOk (fun _ _ => rfl) (stubIn kStateCutscene 44) rfl rfl).2.2.1 rfl,
   (advance_ending_chain engineOk (fun _ _ => rfl) (stubIn kStateCutscene 13) rfl
      rfl).2.2.2.1 rfl⟩

/-! ## The cutscene tick -/

theorem advance_interrupted (E : Engine) (s : GameStub_F2B)
    (hi : s._g._cut.interrupted = true) : advance E s = setNumToPlay (-1) s := by
  simp [advance, Cutscene.isInterrupted, hi]

theorem tickCutscene_nextState (P : Params) (E : Engine) (ticks : Nat) (s : GameStub_F2B)
    (hdone : (invoke E (Call.cutUpdate ticks) s).1 = false)
    (hneg : (advance E (atCompletion E ticks s))._g._cut._numToPlay < 0) :
    (tickCutscene P E ticks s)._nextState = kStateGame := by
  unfold tickCutscene
  unfold atCompletion at hneg
  simp only [hdone, Bool.not_false, if_true, hneg]
  split_ifs <;> rfl

theorem tickCutscene_cursor (P : Params) (E : Engine) (ticks : Nat) (s : GameStub_F2B)
    (hdone : (invoke E (Call.cutUpdate ticks) s).1 = false)
    (hneg : (advance E (atCompletion E ticks s))._g._cut._numToPlay < 0)
    (hkeep : ¬ ((advance E (atCompletion E ticks s))._g._level = P.kLevelGameOver ∨
      (P.g_isDemo = true ∧ (atCompletion E ticks s)._g._cut._numToPlay = 43))) :
    (tickCutscene P E ticks s)._g._cut._numToPlay
      = (advance E (atCompletion E ticks s))._g._cut._numToPlay := by
  unfold tickCutscene
  unfold atCompletion at hneg hkeep ⊢
  simp only [hdone, Bool.not_false, if_true, hneg]
  rw [if_neg (by simpa using hkeep)]

theorem doTick_cutscene (P : Params) (E : Engine) (ticks : Nat) (s : GameStub_F2B)
    (hmode : (transition E s)._state = kStateCutscene) :
    doTick P E ticks s = clearPointers (tickCutscene P E ticks (transition E s)) := by
  unfold doTick dispatch
  rw [if_pos hmode]

theorem doTick_state (P : Params) (E : Engine) (ticks : Nat) (s : GameStub_F2B) :
    (doTick P E ticks s)._state = (transition E s)._state :=
  (doTick_quiet P E ticks s).state_eq

theorem doTick_enters_game (P : Params) (E : Engine) (ticks : Nat) (s : GameStub_F2B)
    (h : s._nextState = kStateGame) : (doTick P E ticks s)._state = kStateGame := by
  rw [doTick_state, transition_state]
  have : enterRefused E s = false := by
    simp [enterRefused, h, kStateGame, kStateInventory]
  rw [this, h]
  rfl

/-! ## C7 -/

/-- C7: when the playing clip completes on a cutscene tick and the cursor is interrupted, the
sequencing step only writes "none" (`-1`) to the cursor: the override queue keeps every id, no
call is made (so no clip is loaded), whatever the current clip and its table successor are; and
the tick ends with Simulation pending. -/
theorem doTick_interrupted_abandons (P : Params) (E : Engine) (ticks : Nat) (s : GameStub_F2B)
    (hmode : (transition E s)._state = kStateCutscene)
    (hdone : (invoke E (Call.cutUpdate ticks) (transition E s)).1 = false)
    (hint : (atCompletion E ticks (transition E s))._g._cut.interrupted = true) :
    advance E (atCompletion E ticks (transition E s))
      = setNumToPlay (-1) (atCompletion E ticks (transition E s)) ∧
    (advance E (atCompletion E ticks (transition E s)))._g._cut._numToPlay = -1 ∧
    (advance E (atCompletion E ticks (transition E s)))._g._cut.playQueue
      = (atCompletion E ticks (transition E s))._g._cut.playQueue ∧
    (advance E (atCompletion E ticks (transition E s))).log
      = (atCompletion E ticks (transition E s)).log ∧
    (doTick P E ticks s)._nextState = kStateGame := by
  have ha := advance_interrupted E _ hint
  refine ⟨ha, by rw [ha]; rfl, by rw [ha]; rfl, by rw [ha]; rfl, ?_⟩
  rw [doTick_cutscene P E ticks s hmode]
  exact tickCutscene_nextState P E ticks _ hdone (by rw [ha]; simp [setNumToPlay])

theorem doTick_interrupted_abandons_witness :
    (advance engineClipDone
      (atCompletion engineClipDone 16 (transition engineClipDone stubInterrupted)))._g._cut.playQueue
        = [5, 6] ∧
    (doTick params0 engineClipDone 16 stubInterrupted)._nextState = kStateGame :=
  have h := doTick_interrupted_abandons params0 engineClipDone 16 stubInterrupted
    (by decide) (by decide) (by decide)
  ⟨h.2.2.1, h.2.2.2.2⟩

/-! ## C8 -/

/-- C8 (as stated, refuted): current clip 47, nothing queued, `load(39)` fails and `load(13)`
succeeds: the loop goes on to the table successor of the clip that failed and the result is
clip 13, not "none". -/
theorem advance_failed_load_uses_table :
    (stubIn kStateCutscene 47)._g._cut.playQueue = [] ∧
    (stubIn kStateCutscene 47)._g._cut.interrupted = false ∧
    (∀ g, (engineNo39.run (Call.cutLoad 39) g).1 = false) ∧
    (∀ g, (engineNo39.run (Call.cutLoad 13) g).1 = true) ∧
    (advance engineNo39 (stubIn kStateCutscene 47))._g._cut._numToPlay = 13 ∧
    (advance engineNo39 (stubIn kStateCutscene 47))._g._cut._numToPlay ≠ -1 := by
  have h1 : advance engineNo39 (stubIn kStateCutscene 47)
      = advanceLoop engineNo39 (stubIn kStateCutscene 47) := rfl
  have h2 := advanceLoop_fail engineNo39 (stubIn kStateCutscene 47) (by decide) (by decide)
  have h3 := advanceLoop_ok engineNo39
    (invoke engineNo39 (Call.cutLoad (advanceBody (stubIn kStateCutscene 47))._g._cut._numToPlay)
      (advanceBody (stubIn kStateCutscene 47))).2 (by decide) (by decide)
  have h4 : (advance engineNo39 (stubIn kStateCutscene 47))._g._cut._numToPlay = 13 := by
    rw [h1, h2, h3]
    decide
  refine ⟨rfl, rfl, fun _ => rfl, fun _ => rfl, h4, ?_⟩
  rw [h4]
  decide

/-- C8 (amended): when the first candidate of the loop is a clip id whose load fails, the loop
body runs again on the state that load left, with the cursor on the clip that failed: the next
candidate is the head of the override queue when the queue is non-empty (and that head is not
negative), and otherwise the fallback-table successor of the clip that failed; with the queue
empty and no table successor for the failed clip the result is "none". -/
theorem advanceLoop_retries_after_failed_load (E : Engine) (s : GameStub_F2B)
    (hc : 0 ≤ (advanceBody s)._g._cut._numToPlay)
    (hf : (E.run (Call.cutLoad (advanceBody s)._g._cut._numToPlay) (advanceBody s)._g).1
      = false) :
    advanceLoop E s = advanceLoop E (afterFailedLoad E s) ∧
    (afterFailedLoad E s)._g._cut._numToPlay = (advanceBody s)._g._cut._numToPlay ∧
    (afterFailedLoad E s)._g._cut.playQueue = (advanceBody s)._g._cut.playQueue ∧
    (∀ q qs, (afterFailedLoad E s)._g._cut.playQueue = q :: qs →
      (advanceBody (afterFailedLoad E s))._g._cut._numToPlay
        = (if q < 0 then getNextCutsceneNum (advanceBody s)._g._cut._numToPlay else q)) ∧
    ((afterFailedLoad E s)._g._cut.playQueue = [] →
      (advanceBody (afterFailedLoad E s))._g._cut._numToPlay
        = getNextCutsceneNum (advanceBody s)._g._cut._numToPlay) ∧
    ((afterFailedLoad E s)._g._cut.playQueue = [] →
      getNextCutsceneNum (advanceBody s)._g._cut._numToPlay < 0 →
      (advanceLoop E s)._g._cut._numToPlay = -1) := by
  have hfr := invoke_cutLoad_cursor E (advanceBody s)._g._cut._numToPlay (advanceBody s)
  have hloop := advanceLoop_fail E s hc hf
  have hnil : (afterFailedLoad E s)._g._cut.playQueue = [] →
      (advanceBody (afterFailedLoad E s))._g._cut._numToPlay
        = getNextCutsceneNum (advanceBody s)._g._cut._numToPlay := by
    intro hq
    rw [advanceBody_nil _ hq]
    show getNextCutsceneNum (afterFailedLoad E s)._g._cut._numToPlay = _
    unfold afterFailedLoad
    rw [hfr.1]
  refine ⟨hloop, hfr.1, hfr.2, ?_, hnil, ?_⟩
  · intro q qs hq
    rw [(advanceBody_cons _ q qs hq).1]
    unfold afterFailedLoad
    rw [hfr.1]
  · intro hq hneg
    have hlt : (advanceBody (afterFailedLoad E s))._g._cut._numToPlay < 0 := by
      rw [hnil hq]; exact hneg
    rw [hloop]
    show (advanceLoop E (afterFailedLoad E s))._g._cut._numToPlay = -1
    rw [advanceLoop_stop E _ hlt, hnil hq]
    exact getNextCutsceneNum_neg _ hneg

theorem advanceLoop_retries_after_failed_load_witness :
    advanceLoop engineNo39 (stubIn kStateCutscene 47)
      = advanceLoop engineNo39 (afterFailedLoad engineNo39 (stubIn kStateCutscene 47)) ∧
    (advanceBody (afterFailedLoad engineNo39 (stubIn kStateCutscene 47)))._g._cut._numToPlay
      = getNextCutsceneNum (advanceBody (stubIn kStateCutscene 47))._g._cut._numToPlay :=
  have h := advanceLoop_retries_after_failed_load engineNo39 (stubIn kStateCutscene 47)
    (by decide) (by decide)
  ⟨h.1, h.2.2.2.2.1 (by decide)⟩

/-! ## C9 -/

/-- C9: on a cursor that was not interrupted, when the override queue has a head `q >= 0` whose
load succeeds, the sequencing step puts the cursor on `q`, takes `q` off the queue and makes the
one call `load(q)`, whatever the current clip and its table successor are. -/
theorem advance_takes_queue_head (E : Engine) (s : GameStub_F2B) (q : Int) (qs : List Int)
    (hq : s._g._cut.playQueue = q :: qs) (hq0 : 0 ≤ q)
    (hi : s._g._cut.interrupted = false)
    (hload : (E.run (Call.cutLoad q) (advanceBody s)._g).1 = true) :
    (advance E s)._g._cut._numToPlay = q ∧
    (advance E s)._g._cut.playQueue = qs ∧
    (advance E s).log = s.log ++ [Call.cutLoad q] := by
  have hb := advanceBody_cons s q qs hq
  have hc : (advanceBody s)._g._cut._numToPlay = q := by
    rw [hb.1, if_neg (not_lt.2 hq0)]
  have hfr := invoke_cutLoad_cursor E q (advanceBody s)
  unfold advance
  simp only [Cutscene.isInterrupted, hi, Bool.not_false, if_true]
  rw [advanceLoop_ok E s (by rw [hc]; exact hq0) (by rw [hc]; exact hload), hc]
  refine ⟨hfr.1.trans hc, hfr.2.trans hb.2.1, ?_⟩
  show (advanceBody s).log ++ [Call.cutLoad q] = _
  rw [hb.2.2]

theorem advance_takes_queue_head_witness :
    getNextCutsceneNum stubQueued._g._cut._numToPlay = 39 ∧
    (advance engineOk stubQueued)._g._cut._numToPlay = 5 ∧
    (advance engineOk stubQueued)._g._cut.playQueue = [6] :=
  have h := advance_takes_queue_head engineOk stubQueued 5 [6] rfl (by decide) rfl rfl
  ⟨by decide, h.1, h.2.1⟩

/-! ## C10 -/

/-- C10: a clip id that is none of 47, 39, 13, 37, 53, 48, 44 has no table successor
(`getNextCutsceneNum` answers `-1`); and when such a clip completes on a cutscene tick with
nothing queued and a cursor that was not interrupted, the sequencing step only writes "none"
to the cursor, the tick ends in Cutscene mode with Simulation pending (and, unless the restart
of the game-over case runs, with the cursor still "none"), and the next tick enters
Simulation mode. -/
theorem doTick_table_miss_ends_cutscene (num : Int)
    (hnum : num ≠ 47 ∧ num ≠ 39 ∧ num ≠ 13 ∧ num ≠ 37 ∧ num ≠ 53 ∧ num ≠ 48 ∧ num ≠ 44) :
    getNextCutsceneNum num = -1 ∧
    ∀ (P : Params) (E E' : Engine) (ticks ticks' : Nat) (s : GameStub_F2B),
      (transition E s)._state = kStateCutscene →
      (invoke E (Call.cutUpdate ticks) (transition E s)).1 = false →
      (atCompletion E ticks (transition E s))._g._cut._numToPlay = num →
      (atCompletion E ticks (transition E s))._g._cut.playQueue = [] →
      (atCompletion E ticks (transition E s))._g._cut.interrupted = false →
        advance E (atCompletion E ticks (transition E s))
          = setNumToPlay (-1) (atCompletion E ticks (transition E s)) ∧
        (doTick P E ticks s)._state = kStateCutscene ∧
        (doTick P E ticks s)._nextState = kStateGame ∧
        (¬ ((atCompletion E ticks (transition E s))._g._level = P.kLevelGameOver ∨
            (P.g_isDemo = true ∧ num = 43)) →
          (doTick P E ticks s)._g._cut._numToPlay = -1) ∧
        (doTick P E' ticks' (doTick P E ticks s))._state = kStateGame := by
  obtain ⟨h1, h2, h3, h4, h5, h6, h7⟩ := hnum
  have hnext : getNextCutsceneNum num = -1 := by
    simp [getNextCutsceneNum, h1, h2, h3, h4, h5, h6, h7]
  refine ⟨hnext, ?_⟩
  intro P E E' ticks ticks' s hmode hdone hcur hq hi
  have ha : advance E (atCompletion E ticks (transition E s))
      = setNumToPlay (-1) (atCompletion E ticks (transition E s)) := by
    have hb := advanceBody_nil _ hq
    rw [hcur, hnext] at hb
    unfold advance
    simp only [Cutscene.isInterrupted, hi, Bool.not_false, if_true]
    rw [advanceLoop_stop E _ (by rw [hb]; simp [setNumToPlay]), hb]
  have hneg : (advance E (atCompletion E ticks (transition E s)))._g._cut._numToPlay < 0 := by
    rw [ha]; simp [setNumToPlay]
  have hpend : (doTick P E ticks s)._nextState = kStateGame := by
    rw [doTick_cutscene P E ticks s hmode]
    exact tickCutscene_nextState P E ticks _ hdone hneg
  refine ⟨ha, (doTick_state P E ticks s).trans hmode, hpend, ?_,
    doTick_enters_game P E' ticks' _ hpend⟩
  intro hkeep
  rw [doTick_cutscene P E ticks s hmode]
  show (tickCutscene P E ticks (transition E s))._g._cut._numToPlay = -1
  rw [tickCutscene_cursor P E ticks _ hdone hneg (by rw [ha, hcur]; exact hkeep), ha]
  rfl

theorem doTick_table_miss_ends_cutscene_witness :
    getNextCutsceneNum 29 = -1 ∧
    (doTick params0 engineClipDone 16 (stubIn kStateCutscene 29))._nextState = kStateGame ∧
    (doTick params0 engineOk 16
      (doTick params0 engineClipDone 16 (stubIn kStateCutscene 29)))._state = kStateGame :=
  have h := doTick_table_miss_ends_cutscene 29 (by decide)
  have h2 := h.2 params0 engineClipDone engineOk 16 16 (stubIn kStateCutscene 29)
    (by decide) (by decide) (by decide) (by decide) (by decide)
  ⟨h.1, h2.2.2.1, h2.2.2.2.2⟩

/-! ## C13 -/

/-- C13: `queueTouchInput` outside the slot range (`p < 0` or `p >= kPlayerInputPointersCount`)
leaves the stub as it is; inside the range the previous reading of slot `p` becomes the current
reading it had before the call, its current reading becomes `(x, y, down != 0)`, every other
slot and every other field of the snapshot keep their value. -/
theorem queueTouchInput_shifts_slot (p x y down : Int) (s : GameStub_F2B) :
    (¬ (0 ≤ p ∧ p < (s._g.inp.pointers.length : Int)) → queueTouchInput p x y down s = s) ∧
    (0 ≤ p → p < (s._g.inp.pointers.length : Int) →
      ∃ cur prev, s._g.inp.pointers[p.toNat]? = some (cur, prev) ∧
        (queueTouchInput p x y down s)._g.inp.pointers[p.toNat]?
          = some ({ x := x, y := y, down := decide (down ≠ 0) }, cur)) ∧
    (∀ i : Nat, (i : Int) ≠ p →
      (queueTouchInput p x y down s)._g.inp.pointers[i]? = s._g.inp.pointers[i]?) ∧
    (queueTouchInput p x y down s)._g.inp.pointers.length = s._g.inp.pointers.length ∧
    { (queueTouchInput p x y down s) with _g := { (queueTouchInput p x y down s)._g with
        inp := { (queueTouchInput p x y down s)._g.inp with
          pointers := s._g.inp.pointers } } } = s := by
  by_cases hr : 0 ≤ p ∧ p < (s._g.inp.pointers.length : Int)
  · have hlt : p.toNat < s._g.inp.pointers.length := by omega
    have hget : s._g.inp.pointers[p.toNat]? = some s._g.inp.pointers[p.toNat] :=
      List.getElem?_eq_getElem hlt
    have hq : queueTouchInput p x y down s =
        { s with _g := { s._g with inp := { s._g.inp with
          pointers := s._g.inp.pointers.set p.toNat
            ({ x := x, y := y, down := decide (down ≠ 0) }, s._g.inp.pointers[p.toNat].1) } } } := by
      unfold queueTouchInput
      rw [if_pos hr, hget]
    refine ⟨fun h => absurd hr h, ?_, ?_, ?_, ?_⟩
    · intro _ _
      refine ⟨s._g.inp.pointers[p.toNat].1, s._g.inp.pointers[p.toNat].2, hget, ?_⟩
      rw [hq]
      simp [List.getElem?_set, hlt]
    · intro i hi
      rw [hq]
      have : p.toNat ≠ i := by omega
      simp [List.getElem?_set, this]
    · rw [hq]
      simp
    · rw [hq]
  · have hq : queueTouchInput p x y down s = s := by
      unfold queueTouchInput
      rw [if_neg hr]
    refine ⟨fun _ => hq, ?_, ?_, ?_, ?_⟩
    · intro h1 h2
      exact absurd ⟨h1, h2⟩ hr
    · intro i _
      rw [hq]
    · rw [hq]
    · rw [hq]

/-! ## C14 -/

/-- C14: after every `doTick`, in whatever mode the update ran, the previous reading of every
pointer slot has `down = false`; the clearing step that ends the tick keeps the number of slots,
every current reading and the position of every previous reading. -/
theorem doTick_clears_pointer_edges (P : Params) (E : Engine) (ticks : Nat)
    (s : GameStub_F2B) :
    (∀ p ∈ (doTick P E ticks s)._g.inp.pointers, p.2.down = false) ∧
    doTick P E ticks s = clearPointers (dispatch P E ticks (transition E s)) ∧
    (∀ u : GameStub_F2B,
      (clearPointers u)._g.inp.pointers.map (fun p => p.1)
        = u._g.inp.pointers.map (fun p => p.1) ∧
      (clearPointers u)._g.inp.pointers.map (fun p => (p.2.x, p.2.y))
        = u._g.inp.pointers.map (fun p => (p.2.x, p.2.y)) ∧
      (clearPointers u)._g.inp.pointers.length = u._g.inp.pointers.length) := by
  refine ⟨?_, rfl, ?_⟩
  · intro p hp
    simp only [doTick, clearPointers, List.mem_map] at hp
    obtain ⟨q, _, rfl⟩ := hp
    rfl
  · intro u
    simp [clearPointers, Function.comp_def]

/-! ## C15 -/

/-- C15: `saveState(a)` then `saveState(b)` and one `drawGL` in Simulation mode call the save
collaborator once, for slot `b`; and a `saveState` call changes nothing but the recorded slot
and the save-pending flag: the game, the log of engine calls, both modes and the load-pending
flag keep their value. -/
theorem drawGL_saves_last_slot (E : Engine) (a b : Int) (s : GameStub_F2B)
    (hg : s._state = kStateGame) :
    (drawGL E (saveState b (saveState a s))).log.filter isSave
      = s.log.filter isSave ++ [Call.saveGameState b] ∧
    (drawGL E (saveState b (saveState a s)))._saveState = false ∧
    (∀ (slot : Int) (u : GameStub_F2B),
      (saveState slot u)._g = u._g ∧ (saveState slot u).log = u.log ∧
      (saveState slot u)._state = u._state ∧ (saveState slot u)._nextState = u._nextState ∧
      (saveState slot u)._loadState = u._loadState ∧
      (saveState slot u)._slotState = slot ∧ (saveState slot u)._saveState = true) := by
  refine ⟨?_, (drawGL_flags E _).2, fun _ _ => ⟨rfl, rfl, rfl, rfl, rfl, rfl, rfl⟩⟩
  rw [drawGL_save_calls]
  simp [saveState, hg]

theorem drawGL_saves_last_slot_witness :
    (drawGL engineOk (saveState 2 (saveState 1 (stubIn kStateGame 47)))).log.filter isSave
      = (stubIn kStateGame 47).log.filter isSave ++ [Call.saveGameState 2] :=
  (drawGL_saves_last_slot engineOk 1 2 (stubIn kStateGame 47) (by decide)).1

/-! ## C17 -/

theorem tickGame_eq (E : Engine) (s : GameStub_F2B) :
    tickGame E s =
      if (gameUpdated E s)._g.inp.inventoryKey then
        { gameUpdated E s with
          _g := { (gameUpdated E s)._g with
            inp := { (gameUpdated E s)._g.inp with inventoryKey := false } },
          _nextState := kStateInventory }
      else if (gameUpdated E s)._g.inp.escapeKey then
        { gameUpdated E s with
          _g := { (gameUpdated E s)._g with
            inp := { (gameUpdated E s)._g.inp with escapeKey := false } },
          _nextState := kStateMenu }
      else if 0 ≤ (gameUpdated E s)._g._cut._numToPlay ∧
          (gameUpdated E s)._g._cut._numToPlayCounter = 0 then
        { gameUpdated E s with _nextState := kStateCutscene }
      else if (gameUpdated E s)._g._cabinetItemCount ≠ 0 then
        { gameUpdated E s with _nextState := kStateCabinet }
      else gameUpdated E s := rfl

theorem gameUpdated_nextState (E : Engine) (s : GameStub_F2B) :
    (gameUpdated E s)._nextState = s._nextState := by
  unfold gameUpdated
  dsimp only
  split_ifs <;> rfl

/-- C17: on a tick whose update runs in Simulation mode, what is pending after the tick is read
off the state the simulation update left, in this order: Inventory when the inventory flag is
set (that flag is cleared, the escape flag keeps its value); else Menu when the escape flag is
set (that flag is cleared); else Cutscene when the cursor is `>= 0` and its start-delay counter
is 0; else Cabinet when the cabinet-item counter is not 0; else Simulation stays pending. -/
theorem doTick_game_requests (P : Params) (E : Engine) (ticks : Nat) (s : GameStub_F2B)
    (hmode : (transition E s)._state = kStateGame) :
    (doTick P E ticks s)._nextState =
      (if (gameUpdated E (transition E s))._g.inp.inventoryKey = true then kStateInventory
       else if (gameUpdated E (transition E s))._g.inp.escapeKey = true then kStateMenu
       else if 0 ≤ (gameUpdated E (transition E s))._g._cut._numToPlay ∧
          (gameUpdated E (transition E s))._g._cut._numToPlayCounter = 0 then kStateCutscene
       else if (gameUpdated E (transition E s))._g._cabinetItemCount ≠ 0 then kStateCabinet
       else kStateGame) ∧
    ((gameUpdated E (transition E s))._g.inp.inventoryKey = true →
      (doTick P E ticks s)._g.inp.inventoryKey = false ∧
      (doTick P E ticks s)._g.inp.escapeKey
        = (gameUpdated E (transition E s))._g.inp.escapeKey) ∧
    ((gameUpdated E (transition E s))._g.inp.inventoryKey = false →
      (gameUpdated E (transition E s))._g.inp.escapeKey = true →
      (doTick P E ticks s)._g.inp.escapeKey = false ∧
      (doTick P E ticks s)._g.inp.inventoryKey = false) := by
  have hd : doTick P E ticks s = clearPointers (tickGame E (transition E s)) := by
    unfold doTick dispatch
    rw [if_neg (by rw [hmode]; decide), if_pos hmode]
  have hn : (gameUpdated E (transition E s))._nextState = kStateGame := by
    rw [gameUpdated_nextState]
    exact hmode
  rw [hd, tickGame_eq]
  refine ⟨?_, ?_, ?_⟩
  · split_ifs <;> first | rfl | exact hn
  · intro h
    rw [if_pos h]
    exact ⟨rfl, rfl⟩
  · intro h1 h2
    rw [if_neg (by rw [h1]; decide), if_pos h2]
    exact ⟨rfl, h1⟩

theorem doTick_game_requests_witness :
    (doTick params0 engineOk 16 stubBothKeys)._nextState = kStateInventory ∧
    (doTick params0 engineOk 16 stubBothKeys)._g.inp.inventoryKey = false ∧
    (doTick params0 engineOk 16 stubBothKeys)._g.inp.escapeKey = true :=
  have h := doTick_game_requests params0 engineOk 16 stubBothKeys (by decide)
  ⟨h.1.trans (by decide), (h.2.1 (by decide)).1, (h.2.1 (by decide)).2.trans (by decide)⟩

/-! ## C16 -/

theorem strcasecmpAux_eq_zero (a b : List Char) :
    strcasecmpAux a b = 0 ↔ a.map Char.toLower = b.map Char.toLower := by
  induction a generalizing b with
  | nil => cases b <;> simp [strcasecmpAux]
  | cons x xs ih =>
    cases b with
    | nil => simp [strcasecmpAux]
    | cons y ys =>
      simp only [strcasecmpAux, List.map_cons, List.cons.injEq]
      by_cases h : x.toLower = y.toLower
      · simp [h, ih]
      · simp only [h, if_false, false_and, iff_false]
        split_ifs <;> decide

theorem strcasecmp_eq_zero (a b : String) :
    strcasecmp a b = 0 ↔ sameIgnoringCase a b :=
  strcasecmpAux_eq_zero a.data b.data

theorem find_languages (v : String) :
    _languages.find? (fun e => strcasecmp e.str v == 0) =
      if lowerCase v = ['e', 'n'] then
        some { lang := FileLanguage.kFileLanguage_EN, str := "EN", voice := true }
      else if lowerCase v = ['f', 'r'] then
        some { lang := FileLanguage.kFileLanguage_FR, str := "FR", voice := true }
      else if lowerCase v = ['g', 'r'] then
        some { lang := FileLanguage.kFileLanguage_GR, str := "GR", voice := true }
      else if lowerCase v = ['s', 'p'] then
        some { lang := FileLanguage.kFileLanguage_SP, str := "SP", voice := false }
      else if lowerCase v = ['i', 't'] then
        some { lang := FileLanguage.kFileLanguage_IT, str := "IT", voice := false }
      else none := by
  have hEN : lowerCase "EN" = ['e', 'n'] := by decide
  have hFR : lowerCase "FR" = ['f', 'r'] := by decide
  have hGR : lowerCase "GR" = ['g', 'r'] := by decide
  have hSP : lowerCase "SP" = ['s', 'p'] := by decide
  have hIT : lowerCase "IT" = ['i', 't'] := by decide
  have key : ∀ a : String, (strcasecmp a v == 0) = decide (lowerCase v = lowerCase a) := by
    intro a
    by_cases h : lowerCase v = lowerCase a
    · simp [h, (strcasecmp_eq_zero a v).2 h.symm]
    · have : ¬ strcasecmp a v = 0 := fun hc => h ((strcasecmp_eq_zero a v).1 hc).symm
      simp [h, this]
  simp only [_languages, List.find?_cons, List.find?_nil, key, hEN, hFR, hGR, hSP, hIT]
  split_ifs <;> simp_all

theorem find_languages_match (v : String) (e : LanguageEntry) (he : e ∈ _languages)
    (h : sameIgnoringCase e.str v) :
    _languages.find? (fun e => strcasecmp e.str v == 0) = some e := by
  have hEN : lowerCase "EN" = ['e', 'n'] := by decide
  have hFR : lowerCase "FR" = ['f', 'r'] := by decide
  have hGR : lowerCase "GR" = ['g', 'r'] := by decide
  have hSP : lowerCase "SP" = ['s', 'p'] := by decide
  have hIT : lowerCase "IT" = ['i', 't'] := by decide
  unfold sameIgnoringCase at h
  rw [find_languages]
  simp only [_languages, List.mem_cons, List.mem_singleton, List.not_mem_nil, or_false] at he
  rcases he with rfl | rfl | rfl | rfl | rfl
  · rw [hEN] at h
    simp [← h]
  · rw [hFR] at h
    simp [← h]
  · rw [hGR] at h
    simp [← h]
  · rw [hSP] at h
    simp [← h]
  · rw [hIT] at h
    simp [← h]

theorem find_languages_none (v : String)
    (h : ∀ e ∈ _languages, ¬ sameIgnoringCase e.str v) :
    _languages.find? (fun e => strcasecmp e.str v == 0) = none := by
  rw [List.find?_eq_none]
  intro e he
  have := h e he
  rw [← strcasecmp_eq_zero] at this
  simpa using this

/-- C16: `parseVoice` always answers an entry of the five-entry table that has voice files (EN,
FR or GR): the text language itself when that is EN, FR or GR, whatever the voice argument; for
text language SP or IT the entry that matches the voice argument case-insensitively when that
entry has voice files, and EN when the entry has none, when nothing matches and when the
argument is absent.  `parseLanguage` answers the entry that matches case-insensitively, and EN
when nothing matches or the argument is absent. -/
theorem parseVoice_parseLanguage_table (voice : Option String) (lang : FileLanguage) :
    (∃ e ∈ _languages, e.lang = parseVoice voice lang ∧ e.voice = true) ∧
    (lang = FileLanguage.kFileLanguage_EN ∨ lang = FileLanguage.kFileLanguage_FR ∨
        lang = FileLanguage.kFileLanguage_GR → parseVoice voice lang = lang) ∧
    (lang = FileLanguage.kFileLanguage_SP ∨ lang = FileLanguage.kFileLanguage_IT →
      parseVoice none lang = FileLanguage.kFileLanguage_EN ∧
      ∀ v : String,
        (∀ e ∈ _languages, sameIgnoringCase e.str v →
          parseVoice (some v) lang
            = if e.voice = true then e.lang else FileLanguage.kFileLanguage_EN) ∧
        ((∀ e ∈ _languages, ¬ sameIgnoringCase e.str v) →
          parseVoice (some v) lang = FileLanguage.kFileLanguage_EN)) ∧
    parseLanguage none = FileLanguage.kFileLanguage_EN ∧
    (∀ l : String,
      (∀ e ∈ _languages, sameIgnoringCase e.str l → parseLanguage (some l) = e.lang) ∧
      ((∀ e ∈ _languages, ¬ sameIgnoringCase e.str l) →
        parseLanguage (some l) = FileLanguage.kFileLanguage_EN)) := by
  have hsel : lang = FileLanguage.kFileLanguage_SP ∨ lang = FileLanguage.kFileLanguage_IT →
      ∀ v : String,
        (∀ e ∈ _languages, sameIgnoringCase e.str v →
          parseVoice (some v) lang
            = if e.voice = true then e.lang else FileLanguage.kFileLanguage_EN) ∧
        ((∀ e ∈ _languages, ¬ sameIgnoringCase e.str v) →
          parseVoice (some v) lang = FileLanguage.kFileLanguage_EN) := by
    intro hl v
    refine ⟨fun e he h => ?_, fun h => ?_⟩
    · rcases hl with rfl | rfl <;> simp [parseVoice, find_languages_match v e he h]
    · rcases hl with rfl | rfl <;> simp [parseVoice, find_languages_none v h]
  refine ⟨?_, ?_, fun hl => ⟨?_, hsel hl⟩, rfl, fun l => ⟨fun e he h => ?_, fun h => ?_⟩⟩
  · have hres : parseVoice voice lang = FileLanguage.kFileLanguage_EN ∨
        parseVoice voice lang = FileLanguage.kFileLanguage_FR ∨
        parseVoice voice lang = FileLanguage.kFileLanguage_GR := by
      cases voice with
      | none => cases lang <;> simp [parseVoice]
      | some v =>
        cases lang <;> simp only [parseVoice] <;> (try rw [find_languages]) <;>
          (try split_ifs) <;> simp
    rcases hres with h | h | h <;> rw [h] <;> simp [_languages]
  · rintro (rfl | rfl | rfl) <;> rfl
  · rcases hl with rfl | rfl <;> rfl
  · simp [parseLanguage, find_languages_match l e he h]
  · simp [parseLanguage, find_languages_none l h]

/-! ## C18 -/

/-- C18 (as stated, refuted): clip 48, the closing credits, completes, the interrupted sequence
leaves no further clip, the game is at level 0 (not the game-over level) and this is not the
demo: the tick makes no `initLevel` call and leaves the level as it is. -/
theorem closing_clip_alone_does_not_restart :
    (atCompletion engineClipDone 16 (transition engineClipDone (stubEnding 0)))._g._cut._numToPlay
      = 48 ∧
    (advance engineClipDone
      (atCompletion engineClipDone 16
        (transition engineClipDone (stubEnding 0))))._g._cut._numToPlay < 0 ∧
    (doTick params0 engineClipDone 16 (stubEnding 0)).log
      = [Call.cutUpdate 16, Call.cutUnload] ∧
    (doTick params0 engineClipDone 16 (stubEnding 0))._g._level = (stubEnding 0)._g._level := by
  decide

theorem tickCutscene_done (P : Params) (E : Engine) (ticks : Nat) (s : GameStub_F2B)
    (hdone : (invoke E (Call.cutUpdate ticks) s).1 = false) :
    tickCutscene P E ticks s =
      if (advance E (atCompletion E ticks s))._g._cut._numToPlay < 0 then
        if (advance E (atCompletion E ticks s))._g._level = P.kLevelGameOver ∨
            (P.g_isDemo = true ∧ (atCompletion E ticks s)._g._cut._numToPlay = 43) then
          (invoke E (Call.initLevel none)
            { advance E (atCompletion E ticks s) with
              _g := { (advance E (atCompletion E ticks s))._g with
                _changeLevel := false, _level := 0 },
              _nextState := kStateGame }).2
        else { advance E (atCompletion E ticks s) with _nextState := kStateGame }
      else advance E (atCompletion E ticks s) := by
  unfold tickCutscene atCompletion
  simp only [hdone, Bool.not_false, if_true]
  split_ifs <;> simp_all

/-- C18 (amended): on a cutscene tick in which the playing clip completes, the game is
restarted (change-level flag cleared, level set to 0, `initLevel()` called once, as the last
call of the update) exactly when the sequencing step leaves no clip (cursor `< 0`) and either
the game's level is the game-over level `kLevelGameOver` or this is the demo and the clip read
before the sequencing step is 43; in every other case, in particular when the step found a next
clip that loads, nothing is reset. -/
theorem doTick_restart_condition (P : Params) (E : Engine) (ticks : Nat) (s : GameStub_F2B)
    (hmode : (transition E s)._state = kStateCutscene)
    (hdone : (invoke E (Call.cutUpdate ticks) (transition E s)).1 = false) :
    ((advance E (atCompletion E ticks (transition E s)))._g._cut._numToPlay < 0 →
      ((advance E (atCompletion E ticks (transition E s)))._g._level = P.kLevelGameOver ∨
        (P.g_isDemo = true ∧
          (atCompletion E ticks (transition E s))._g._cut._numToPlay = 43)) →
      doTick P E ticks s = clearPointers
        (invoke E (Call.initLevel none)
          { advance E (atCompletion E ticks (transition E s)) with
            _g := { (advance E (atCompletion E ticks (transition E s)))._g with
              _changeLevel := false, _level := 0 },
            _nextState := kStateGame }).2) ∧
    ((advance E (atCompletion E ticks (transition E s)))._g._cut._numToPlay < 0 →
      ¬ ((advance E (atCompletion E ticks (transition E s)))._g._level = P.kLevelGameOver ∨
        (P.g_isDemo = true ∧
          (atCompletion E ticks (transition E s))._g._cut._numToPlay = 43)) →
      doTick P E ticks s = clearPointers
        { advance E (atCompletion E ticks (transition E s)) with _nextState := kStateGame }) ∧
    (0 ≤ (advance E (atCompletion E ticks (transition E s)))._g._cut._numToPlay →
      doTick P E ticks s
        = clearPointers (advance E (atCompletion E ticks (transition E s)))) := by
  rw [doTick_cutscene P E ticks s hmode, tickCutscene_done P E ticks _ hdone]
  refine ⟨fun h1 h2 => ?_, fun h1 h2 => ?_, fun h1 => ?_⟩
  · rw [if_pos h1, if_pos h2]
  · rw [if_pos h1, if_neg h2]
  · rw [if_neg (not_lt.2 h1)]

theorem doTick_restart_condition_witness :
    (doTick params0 engineClipDone 16 (stubEnding 14)).log
      = [Call.cutUpdate 16, Call.cutUnload, Call.initLevel none] ∧
    (doTick params0 engineClipDone 16 (stubEnding 14))._g._level = 0 :=
  have h := (doTick_restart_condition params0 engineClipDone 16 (stubEnding 14)
    (by decide) (by decide)).1 (by decide) (by decide)
  ⟨by rw [h]; decide, by rw [h]; decide⟩

/-! ## C19 -/

theorem getNextCutsceneNum_chain (id : Int) :
    ∃ k, k ≤ 6 ∧ getNextCutsceneNum^[k] id = -1 := by
  by_cases h47 : id = 47
  · exact ⟨6, le_refl 6, by rw [h47]; decide⟩
  by_cases h48 : id = 48
  · exact ⟨6, le_refl 6, by rw [h48]; decide⟩
  by_cases h39 : id = 39
  · exact ⟨5, by decide, by rw [h39]; decide⟩
  by_cases h44 : id = 44
  · exact ⟨5, by decide, by rw [h44]; decide⟩
  by_cases h13 : id = 13
  · exact ⟨4, by decide, by rw [h13]; decide⟩
  by_cases h37 : id = 37
  · exact ⟨3, by decide, by rw [h37]; decide⟩
  by_cases h53 : id = 53
  · exact ⟨2, by decide, by rw [h53]; decide⟩
  · refine ⟨1, by decide, ?_⟩
    simp [getNextCutsceneNum, h47, h48, h39, h44, h13, h37, h53]

theorem chainLen_pos (num : Int) (h : 0 ≤ num) : 1 ≤ chainLen num := by
  unfold chainLen
  split_ifs <;> omega

theorem iterationBound_pos (s : GameStub_F2B) : 1 ≤ iterationBound s := by
  unfold iterationBound
  split_ifs
  · exact le_max_left 1 _
  · omega

theorem iterationBound_le (s : GameStub_F2B) :
    iterationBound s ≤ s._g._cut.playQueue.length + 6 := by
  unfold iterationBound
  have := chainLen_le s._g._cut._numToPlay
  split_ifs <;> omega

theorem iterationBound_body (E : Engine) (s : GameStub_F2B)
    (h : 0 ≤ (advanceBody s)._g._cut._numToPlay) :
    iterationBound
      (invoke E (Call.cutLoad (advanceBody s)._g._cut._numToPlay) (advanceBody s)).2 + 1
      ≤ iterationBound s := by
  have hfr := invoke_cutLoad_cursor E (advanceBody s)._g._cut._numToPlay (advanceBody s)
  unfold iterationBound
  rw [hfr.1, hfr.2]
  cases hq : s._g._cut.playQueue with
  | nil =>
    have hb := advanceBody_nil s hq
    have hc : (advanceBody s)._g._cut._numToPlay = getNextCutsceneNum s._g._cut._numToPlay := by
      rw [hb]; rfl
    have hbq : (advanceBody s)._g._cut.playQueue = [] := by
      rw [hb]; exact hq
    rw [hc] at h ⊢
    have h1 := chainLen_next _ h
    have h2 := chainLen_pos _ h
    simp only [hbq, if_true]
    omega
  | cons q qs =>
    have hb := advanceBody_cons s q qs hq
    have h1 := chainLen_le (advanceBody s)._g._cut._numToPlay
    rw [hb.2.1]
    simp only [List.length_cons, if_false, reduceCtorEq]
    split_ifs <;> omega

theorem advanceLoopFuel_enough (E : Engine) (s : GameStub_F2B) :
    ∀ fuel, iterationBound s ≤ fuel → advanceLoopFuel E fuel s = some (advanceLoop E s) := by
  induction s using advanceLoop.induct E with
  | case1 x h hl ih =>
    intro fuel hf
    have hp := iterationBound_pos x
    have hb := iterationBound_body E x h
    obtain ⟨f, rfl⟩ : ∃ f, fuel = f + 1 := ⟨fuel - 1, by omega⟩
    rw [advanceLoop_eq, if_pos h, if_pos hl]
    simp only [advanceLoopFuel, if_pos h, if_pos hl]
    exact ih f (by omega)
  | case2 x h hl =>
    intro fuel hf
    have hp := iterationBound_pos x
    obtain ⟨f, rfl⟩ : ∃ f, fuel = f + 1 := ⟨fuel - 1, by omega⟩
    rw [advanceLoop_eq, if_pos h, if_neg hl]
    simp only [advanceLoopFuel, if_pos h, if_neg hl]
  | case3 x h =>
    intro fuel hf
    have hp := iterationBound_pos x
    obtain ⟨f, rfl⟩ : ∃ f, fuel = f + 1 := ⟨fuel - 1, by omega⟩
    rw [advanceLoop_eq, if_neg h]
    simp only [advanceLoopFuel, if_neg h]

theorem advanceBody_neg (s : GameStub_F2B) (h : (advanceBody s)._g._cut._numToPlay < 0) :
    (advanceBody s)._g._cut._numToPlay = -1 := by
  cases hq : s._g._cut.playQueue with
  | nil =>
    have hc : (advanceBody s)._g._cut._numToPlay = getNextCutsceneNum s._g._cut._numToPlay := by
      rw [advanceBody_nil s hq]; rfl
    rw [hc] at h ⊢
    exact getNextCutsceneNum_neg _ h
  | cons q qs =>
    have hb := (advanceBody_cons s q qs hq).1
    rw [hb] at h ⊢
    by_cases hq0 : q < 0
    · rw [if_pos hq0] at h ⊢
      exact getNextCutsceneNum_neg _ h
    · rw [if_neg hq0] at h
      exact absurd h hq0

/-- C19: the fallback table has no cycle: from every id at most 6 applications of
`getNextCutsceneNum` reach `-1`.  Hence the `do ... while` loop of the sequencing step leaves
after at most `n + 6` iterations, `n` being the number of queued ids, whatever the loads answer;
and when it leaves the cursor is `-1` or a clip id whose load, the last call made, succeeded. -/
theorem advanceLoop_terminates (E : Engine) (s : GameStub_F2B) (id : Int) :
    (∃ k, k ≤ 6 ∧ getNextCutsceneNum^[k] id = -1) ∧
    advanceLoopFuel E (s._g._cut.playQueue.length + 6) s = some (advanceLoop E s) ∧
    ((advanceLoop E s)._g._cut._numToPlay = -1 ∨
      (0 ≤ (advanceLoop E s)._g._cut._numToPlay ∧
        ∃ pre : GameStub_F2B,
          advanceLoop E s
            = (invoke E (Call.cutLoad (advanceLoop E s)._g._cut._numToPlay) pre).2 ∧
          (E.run (Call.cutLoad (advanceLoop E s)._g._cut._numToPlay) pre._g).1 = true)) := by
  refine ⟨getNextCutsceneNum_chain id,
    advanceLoopFuel_enough E s _ (iterationBound_le s), ?_⟩
  refine advanceLoop_rel E
    (fun _ t => t._g._cut._numToPlay = -1 ∨
      (0 ≤ t._g._cut._numToPlay ∧
        ∃ pre : GameStub_F2B,
          t = (invoke E (Call.cutLoad t._g._cut._numToPlay) pre).2 ∧
          (E.run (Call.cutLoad t._g._cut._numToPlay) pre._g).1 = true)) ?_ ?_ ?_ s
  · intro s h
    exact Or.inl (advanceBody_neg s (not_le.1 h))
  · intro s h hl
    have hfr := (invoke_cutLoad_cursor E (advanceBody s)._g._cut._numToPlay (advanceBody s)).1
    refine Or.inr ⟨by rw [hfr]; exact h, advanceBody s, ?_, ?_⟩
    · rw [hfr]
    · rw [hfr]
      exact hl
  · intro s t _ _ ht
    exact ht

/-! ## Key events -/

theorem testBit_andNot (x m i : Nat) :
    (andNot x m).testBit i = (x.testBit i && !m.testBit i) := by
  unfold andNot
  rw [Nat.testBit_xor, Nat.testBit_and]
  cases x.testBit i <;> cases m.testBit i <;> rfl

/-- What `queueKeyInput` does, by key code: it writes `pressed != 0` at the one place the code
is assigned to, or toggles the cheat mask, or (unknown code) does nothing. -/
theorem queueKeyInput_cases (K : KeyCodes) (hK : WellFormed K) (keycode : Int) :
    (∃ loc, (∀ loc2, keyField K keycode loc2 ↔ loc2 = loc) ∧
      (∀ i, loc = Loc.numKey i → 1 ≤ i ∧ i ≤ 5) ∧
      (∀ i, loc = Loc.dirBit i →
        2 ^ i ∈ [K.kInputDirLeft, K.kInputDirRight, K.kInputDirUp, K.kInputDirDown]) ∧
      keycode ∈ allCodes K ∧
      (∀ (pressed : Int) (s : GameStub_F2B), queueKeyInput K keycode pressed s
        = setInp (writeLoc s._g.inp loc (decide (pressed ≠ 0))) s)) ∨
    ((∀ loc2, ¬ keyField K keycode loc2) ∧ keycode = K.kKeyCodeCheatLifeCounter ∧
      (∀ (pressed : Int) (s : GameStub_F2B), queueKeyInput K keycode pressed s
        = { s with _g := { s._g with _cheats := s._g._cheats ^^^ K.kCheatLifeCounter } })) ∨
    ((∀ loc2, ¬ keyField K keycode loc2) ∧ keycode ∉ allCodes K ∧
      (∀ (pressed : Int) (s : GameStub_F2B), queueKeyInput K keycode pressed s = s)) := by
  by_cases h1 : keycode = K.kKeyCodeLeft
  · subst h1
    obtain ⟨k, _, hm⟩ := hK.1
    refine Or.inl ⟨Loc.dirBit k, ?_, ?_, ?_, ?_, ?_⟩
    · intro loc2
      simp only [keyField, *, eq_self_iff_true, if_true, if_false, hm, Nat.testBit_two_pow]
      constructor
      · rintro ⟨i, rfl, hi⟩
        rw [of_decide_eq_true hi]
      · intro h
        exact ⟨k, h, by simp⟩
    · intro i hi
      cases hi
    · intro i hi
      cases hi
      rw [← hm]
      simp
    · simp [allCodes, *]
    · intro pressed s
      simp only [queueKeyInput, *, eq_self_iff_true, if_true, if_false, writeLoc, hm]
      by_cases hp : pressed = 0 <;> simp [hp]
  by_cases h2 : keycode = K.kKeyCodeRight
  · subst h2
    obtain ⟨k, _, hm⟩ := hK.2.1
    refine Or.inl ⟨Loc.dirBit k, ?_, ?_, ?_, ?_, ?_⟩
    · intro loc2
      simp only [keyField, *, eq_self_iff_true, if_true, if_false, hm, Nat.testBit_two_pow]
      constructor
      · rintro ⟨i, rfl, hi⟩
        rw [of_decide_eq_true hi]
      · intro h
        exact ⟨k, h, by simp⟩
    · intro i hi
      cases hi
    · intro i hi
      cases hi
      rw [← hm]
      simp
    · simp [allCodes, *]
    · intro pressed s
      simp only [queueKeyInput, *, eq_self_iff_true, if_true, if_false, writeLoc, hm]
      by_cases hp : pressed = 0 <;> simp [hp]
  by_cases h3 : keycode = K.kKeyCodeUp
  · subst h3
    obtain ⟨k, _, hm⟩ := hK.2.2.1
    refine Or.inl ⟨Loc.dirBit k, ?_, ?_, ?_, ?_, ?_⟩
    · intro loc2
      simp only [keyField, *, eq_self_iff_true, if_true, if_false, hm, Nat.testBit_two_pow]
      constructor
      · rintro ⟨i, rfl, hi⟩
        rw [of_decide_eq_true hi]
      · intro h
        exact ⟨k, h, by simp⟩
    · intro i hi
      cases hi
    · intro i hi
      cases hi
      rw [← hm]
      simp
    · simp [allCodes, *]
    · intro pressed s
      simp only [queueKeyInput, *, eq_self_iff_true, if_true, if_false, writeLoc, hm]
      by_cases hp : pressed = 0 <;> simp [hp]
  by_cases h4 : keycode = K.kKeyCodeDown
  · subst h4
    obtain ⟨k, _, hm⟩ := hK.2.2.2.1
    refine Or.inl ⟨Loc.dirBit k, ?_, ?_, ?_, ?_, ?_⟩
    · intro loc2
      simp only [keyField, *, eq_self_iff_true, if_true, if_false, hm, Nat.testBit_two_pow]
      constructor
      · rintro ⟨i, rfl, hi⟩
        rw [of_decide_eq_true hi]
      · intro h
        exact ⟨k, h, by simp⟩
    · intro i hi
      cases hi
    · intro i hi
      cases hi
      rw [← hm]
      simp
    · simp [allCodes, *]
    · intro pressed s
      simp only [queueKeyInput, *, eq_self_iff_true, if_true, if_false, writeLoc, hm]
      by_cases hp : pressed = 0 <;> simp [hp]
  by_cases h5 : keycode = K.kKeyCodeAlt
  · subst h5
    refine Or.inl ⟨Loc.altKey, ?_, ?_, ?_, ?_, ?_⟩
    · intro loc2
      simp only [keyField, *, eq_self_iff_true, if_true, if_false]
    · intro i hi
      cases hi
    · intro i hi
      cases hi
    · simp [allCodes, *]
    · intro pressed s
      simp only [queueKeyInput, *, eq_self_iff_true, if_true, if_false, writeLoc]
  by_cases h6 : keycode = K.kKeyCodeShift
  · subst h6
    refine Or.inl ⟨Loc.shiftKey, ?_, ?_, ?_, ?_, ?_⟩
    · intro loc2
      simp only [keyField, *, eq_self_iff_true, if_true, if_false]
    · intro i hi
      cases hi
    · intro i hi
      cases hi
    · simp [allCodes, *]
    · intro pressed s
      simp only [queueKeyInput, *, eq_self_iff_true, if_true, if_false, writeLoc]
  by_cases h7 : keycode = K.kKeyCodeCtrl
  · subst h7
    refine Or.inl ⟨Loc.ctrlKey, ?_, ?_, ?_, ?_, ?_⟩
    · intro loc2
      simp only [keyField, *, eq_self_iff_true, if_true, if_false]
    · intro i hi
      cases hi
    · intro i hi
      cases hi
    · simp [allCodes, *]
    · intro pressed s
      simp only [queueKeyInput, *, eq_self_iff_true, if_true, if_false, writeLoc]
  by_cases h8 : keycode = K.kKeyCodeSpace
  · subst h8
    refine Or.inl ⟨Loc.spaceKey, ?_, ?_, ?_, ?_, ?_⟩
    · intro loc2
      simp only [keyField, *, eq_self_iff_true, if_true, if_false]
    · intro i hi
      cases hi
    · intro i hi
      cases hi
    · simp [allCodes, *]
    · intro pressed s
      simp only [queueKeyInput, *, eq_self_iff_true, if_true, if_false, writeLoc]
  by_cases h9 : keycode = K.kKeyCodeTab
  · subst h9
    refine Or.inl ⟨Loc.tabKey, ?_, ?_, ?_, ?_, ?_⟩
    · intro loc2
      simp only [keyField, *, eq_self_iff_true, if_true, if_false]
    · intro i hi
      cases hi
    · intro i hi
      cases hi
    · simp [allCodes, *]
    · intro pressed s
      simp only [queueKeyInput, *, eq_self_iff_true, if_true, if_false, writeLoc]
  by_cases h10 : keycode = K.kKeyCodeEscape
  · subst h10
    refine Or.inl ⟨Loc.escapeKey, ?_, ?_, ?_, ?_, ?_⟩
    · intro loc2
      simp only [keyField, *, eq_self_iff_true, if_true, if_false]
    · intro i hi
      cases hi
    · intro i hi
      cases hi
    · simp [allCodes, *]
    · intro pressed s
      simp only [queueKeyInput, *, eq_self_iff_true, if_true, if_false, writeLoc]
  by_cases h11 : keycode = K.kKeyCodeI
  · subst h11
    refine Or.inl ⟨Loc.inventoryKey, ?_, ?_, ?_, ?_, ?_⟩
    · intro loc2
      simp only [keyField, *, eq_self_iff_true, if_true, if_false]
    · intro i hi
      cases hi
    · intro i hi
      cases hi
    · simp [allCodes, *]
    · intro pressed s
      simp only [queueKeyInput, *, eq_self_iff_true, if_true, if_false, writeLoc]
  by_cases h12 : keycode = K.kKeyCodeJ
  · subst h12
    refine Or.inl ⟨Loc.jumpKey, ?_, ?_, ?_, ?_, ?_⟩
    · intro loc2
      simp only [keyField, *, eq_self_iff_true, if_true, if_false]
    · intro i hi
      cases hi
    · intro i hi
      cases hi
    · simp [allCodes, *]
    · intro pressed s
      simp only [queueKeyInput, *, eq_self_iff_true, if_true, if_false, writeLoc]
  by_cases h13 : keycode = K.kKeyCodeU
  · subst h13
    refine Or.inl ⟨Loc.useKey, ?_, ?_, ?_, ?_, ?_⟩
    · intro loc2
      simp only [keyField, *, eq_self_iff_true, if_true, if_false]
    · intro i hi
      cases hi
    · intro i hi
      cases hi
    · simp [allCodes, *]
    · intro pressed s
      simp only [queueKeyInput, *, eq_self_iff_true, if_true, if_false, writeLoc]
  by_cases h14 : keycode = K.kKeyCodeReturn
  · subst h14
    refine Or.inl ⟨Loc.enterKey, ?_, ?_, ?_, ?_, ?_⟩
    · intro loc2
      simp only [keyField, *, eq_self_iff_true, if_true, if_false]
    · intro i hi
      cases hi
    · intro i hi
      cases hi
    · simp [allCodes, *]
    · intro pressed s
      simp only [queueKeyInput, *, eq_self_iff_true, if_true, if_false, writeLoc]
  by_cases h15 : keycode = K.kKeyCode1 ∨ keycode = K.kKeyCode2 ∨ keycode = K.kKeyCode3 ∨
      keycode = K.kKeyCode4 ∨ keycode = K.kKeyCode5
  · refine Or.inl ⟨Loc.numKey (1 + keycode - K.kKeyCode1).toNat, ?_, ?_, ?_, ?_, ?_⟩
    · intro loc2
      simp only [keyField, *, eq_self_iff_true, if_true, if_false]
    · intro i hi
      cases hi
      obtain ⟨_, _, _, _, _, c2, c3, c4, c5⟩ := hK
      omega
    · intro i hi
      cases hi
    · simp only [allCodes, List.mem_cons]
      tauto
    · intro pressed s
      simp only [queueKeyInput, *, eq_self_iff_true, if_true, if_false, writeLoc]
  by_cases h16 : keycode = K.kKeyCodePageUp
  · subst h16
    refine Or.inl ⟨Loc.footStepKey, ?_, ?_, ?_, ?_, ?_⟩
    · intro loc2
      simp only [keyField, *, eq_self_iff_true, if_true, if_false]
    · intro i hi
      cases hi
    · intro i hi
      cases hi
    · simp [allCodes, *]
    · intro pressed s
      simp only [queueKeyInput, *, eq_self_iff_true, if_true, if_false, writeLoc]
  by_cases h17 : keycode = K.kKeyCodePageDown
  · subst h17
    refine Or.inl ⟨Loc.backStepKey, ?_, ?_, ?_, ?_, ?_⟩
    · intro loc2
      simp only [keyField, *, eq_self_iff_true, if_true, if_false]
    · intro i hi
      cases hi
    · intro i hi
      cases hi
    · simp [allCodes, *]
    · intro pressed s
      simp only [queueKeyInput, *, eq_self_iff_true, if_true, if_false, writeLoc]
  by_cases h18 : keycode = K.kKeyCodeFarNear
  · subst h18
    refine Or.inl ⟨Loc.farNear, ?_, ?_, ?_, ?_, ?_⟩
    · intro loc2
      simp only [keyField, *, eq_self_iff_true, if_true, if_false]
    · intro i hi
      cases hi
    · intro i hi
      cases hi
    · simp [allCodes, *]
    · intro pressed s
      simp only [queueKeyInput, *, eq_self_iff_true, if_true, if_false, writeLoc]
  have hnone : ∀ loc2, ¬ keyField K keycode loc2 := by
    intro loc2
    simp only [keyField, *, if_false, not_false_eq_true]
  by_cases h19 : keycode = K.kKeyCodeCheatLifeCounter
  · subst h19
    refine Or.inr (Or.inl ⟨hnone, rfl, ?_⟩)
    intro pressed s
    simp only [queueKeyInput, *, eq_self_iff_true, if_true, if_false]
  · refine Or.inr (Or.inr ⟨hnone, ?_, ?_⟩)
    · simp only [allCodes, List.mem_cons, List.mem_singleton, List.not_mem_nil, or_false]
      tauto
    · intro pressed s
      simp only [queueKeyInput, *, if_false]

theorem getD_set_ne (l : List Bool) (i j : Nat) (b : Bool) (h : i ≠ j) :
    (l.set i b).getD j false = l.getD j false := by
  simp [List.getD_eq_getElem?_getD, List.getElem?_set, h]

theorem set_false_of_getD (l : List Bool) (i : Nat) (h : l.getD i false = false) :
    l.set i false = l := by
  apply List.ext_getElem?
  intro j
  rw [List.getElem?_set]
  split_ifs with h1 h2
  · subst h1
    rw [List.getD_eq_getElem?_getD, List.getElem?_eq_getElem h2] at h
    rw [List.getElem?_eq_getElem h2]
    simp only [Option.getD_some] at h
    rw [h]
  · subst h1
    rw [List.getElem?_eq_none (by omega)]
  · rfl

theorem testBit_writeDir (d i j : Nat) (b : Bool) :
    (if b = true then d ||| 2 ^ i else andNot d (2 ^ i)).testBit j
      = if i = j then b else d.testBit j := by
  cases b <;> by_cases h : i = j <;>
    simp [Nat.testBit_or, testBit_andNot, Nat.testBit_two_pow, h]

theorem readLoc_writeLoc_ne (inp : PlayerInput) (loc loc2 : Loc) (b : Bool)
    (h : loc2 ≠ loc) : readLoc (writeLoc inp loc b) loc2 = readLoc inp loc2 := by
  cases loc <;> cases loc2 <;>
    first
    | rfl
    | exact absurd rfl h
    | (simp only [readLoc, writeLoc]
       rw [testBit_writeDir, if_neg]
       intro hc
       exact h (by rw [hc]))
    | (simp only [readLoc, writeLoc]
       apply getD_set_ne
       intro hc
       exact h (by rw [hc]))

theorem writeLoc_shape (inp : PlayerInput) (loc : Loc) (b : Bool) :
    (writeLoc inp loc b).pointers = inp.pointers ∧
    (writeLoc inp loc b).numKeys.length = inp.numKeys.length := by
  cases loc <;> simp [writeLoc]

theorem writeLoc_release (inp : PlayerInput) (loc : Loc) (b : Bool)
    (h : readLoc inp loc = false) : writeLoc (writeLoc inp loc b) loc false = inp := by
  cases inp
  cases loc
  case dirBit i =>
    simp only [readLoc, writeLoc] at h ⊢
    congr 1
    apply Nat.eq_of_testBit_eq
    intro j
    rw [testBit_writeDir, testBit_writeDir]
    by_cases hj : i = j
    · subst hj
      simp [h]
    · simp [hj]
  case numKey i =>
    simp only [readLoc, writeLoc] at h ⊢
    congr 1
    rw [List.set_set]
    exact set_false_of_getD _ _ h
  all_goals
    simp only [readLoc, writeLoc] at h ⊢
    subst h
    rfl

/-! ## C12 -/

/-- C12: for every key code and `pressed` value, `queueKeyInput` leaves every place of the
snapshot other than the one assigned to the code as it was; a code has at most one place (one
bit of `dirMask`, one named flag, or one of `numKeys[1..5]`); the pointer slots and the size of
`numKeys` never change; a code without a place leaves the whole snapshot unchanged; a code
with no case in the `switch` leaves the whole stub unchanged; and outside the snapshot only the
cheat mask can change. -/
theorem queueKeyInput_writes_one_field (K : KeyCodes) (hK : WellFormed K)
    (keycode pressed : Int) (s : GameStub_F2B) :
    (∀ loc, ¬ keyField K keycode loc →
      readLoc (queueKeyInput K keycode pressed s)._g.inp loc = readLoc s._g.inp loc) ∧
    (∀ loc loc2, keyField K keycode loc → keyField K keycode loc2 → loc = loc2) ∧
    (∀ i, keyField K keycode (Loc.numKey i) → 1 ≤ i ∧ i ≤ 5) ∧
    (queueKeyInput K keycode pressed s)._g.inp.pointers = s._g.inp.pointers ∧
    (queueKeyInput K keycode pressed s)._g.inp.numKeys.length = s._g.inp.numKeys.length ∧
    ((∀ loc, ¬ keyField K keycode loc) →
      (queueKeyInput K keycode pressed s)._g.inp = s._g.inp) ∧
    (keycode ∉ allCodes K → queueKeyInput K keycode pressed s = s) ∧
    { queueKeyInput K keycode pressed s with
      _g := { (queueKeyInput K keycode pressed s)._g with
        inp := s._g.inp, _cheats := s._g._cheats } } = s := by
  rcases queueKeyInput_cases K hK keycode with
    ⟨loc0, hf, hnum, _, hmem, hq⟩ | ⟨hnone, _, hq⟩ | ⟨hnone, hmem, hq⟩
  · rw [hq]
    refine ⟨?_, ?_, ?_, (writeLoc_shape _ _ _).1, (writeLoc_shape _ _ _).2, ?_, ?_, rfl⟩
    · intro loc hloc
      exact readLoc_writeLoc_ne _ _ _ _ (fun hc => hloc ((hf loc).2 hc))
    · intro loc loc2 h1 h2
      rw [(hf loc).1 h1, (hf loc2).1 h2]
    · intro i hi
      exact hnum i ((hf _).1 hi).symm
    · intro h
      exact absurd ((hf loc0).2 rfl) (h loc0)
    · intro h
      exact absurd hmem h
  · rw [hq]
    refine ⟨fun _ _ => rfl, ?_, ?_, rfl, rfl, fun _ => rfl, ?_, rfl⟩
    · intro loc _ h1 _
      exact absurd h1 (hnone loc)
    · intro i hi
      exact absurd hi (hnone _)
    · intro h
      exact absurd (by simp [allCodes, *]) h
  · rw [hq]
    refine ⟨fun _ _ => rfl, ?_, ?_, rfl, rfl, fun _ => rfl, fun _ => rfl, rfl⟩
    · intro loc _ h1 _
      exact absurd h1 (hnone loc)
    · intro i hi
      exact absurd hi (hnone _)

theorem queueKeyInput_writes_one_field_witness :
    (queueKeyInput keys0 99 1 (stubIn kStateGame 47)) = stubIn kStateGame 47 ∧
    (queueKeyInput keys0 6 1 (stubIn kStateGame 47))._g.inp.pointers
      = (stubIn kStateGame 47)._g.inp.pointers :=
  have h := queueKeyInput_writes_one_field keys0 (by decide) 99 1 (stubIn kStateGame 47)
  have h2 := queueKeyInput_writes_one_field keys0 (by decide) 6 1 (stubIn kStateGame 47)
  ⟨h.2.2.2.2.2.2.1 (by decide), h2.2.2.2.1⟩

/-! ## C11 -/

theorem keyField_dirBit (K : KeyCodes) (a : Int) (i : Nat)
    (h : keyField K a (Loc.dirBit i)) :
    (a = K.kKeyCodeLeft ∧ K.kInputDirLeft.testBit i = true) ∨
    (a ≠ K.kKeyCodeLeft ∧ a = K.kKeyCodeRight ∧ K.kInputDirRight.testBit i = true) ∨
    (a ≠ K.kKeyCodeLeft ∧ a ≠ K.kKeyCodeRight ∧ a = K.kKeyCodeUp ∧
      K.kInputDirUp.testBit i = true) ∨
    (a ≠ K.kKeyCodeLeft ∧ a ≠ K.kKeyCodeRight ∧ a ≠ K.kKeyCodeUp ∧ a = K.kKeyCodeDown ∧
      K.kInputDirDown.testBit i = true) := by
  unfold keyField at h
  by_cases h1 : a = K.kKeyCodeLeft
  · rw [if_pos h1] at h
    obtain ⟨j, hj, hb⟩ := h
    cases hj
    exact Or.inl ⟨h1, hb⟩
  rw [if_neg h1] at h
  by_cases h2 : a = K.kKeyCodeRight
  · rw [if_pos h2] at h
    obtain ⟨j, hj, hb⟩ := h
    cases hj
    exact Or.inr (Or.inl ⟨h1, h2, hb⟩)
  rw [if_neg h2] at h
  by_cases h3 : a = K.kKeyCodeUp
  · rw [if_pos h3] at h
    obtain ⟨j, hj, hb⟩ := h
    cases hj
    exact Or.inr (Or.inr (Or.inl ⟨h1, h2, h3, hb⟩))
  rw [if_neg h3] at h
  by_cases h4 : a = K.kKeyCodeDown
  · rw [if_pos h4] at h
    obtain ⟨j, hj, hb⟩ := h
    cases hj
    exact Or.inr (Or.inr (Or.inr ⟨h1, h2, h3, h4, hb⟩))
  rw [if_neg h4] at h
  by_cases h5 : a = K.kKeyCodeAlt
  · rw [if_pos h5] at h
    cases h
  rw [if_neg h5] at h
  by_cases h6 : a = K.kKeyCodeShift
  · rw [if_pos h6] at h
    cases h
  rw [if_neg h6] at h
  by_cases h7 : a = K.kKeyCodeCtrl
  · rw [if_pos h7] at h
    cases h
  rw [if_neg h7] at h
  by_cases h8 : a = K.kKeyCodeSpace
  · rw [if_pos h8] at h
    cases h
  rw [if_neg h8] at h
  by_cases h9 : a = K.kKeyCodeTab
  · rw [if_pos h9] at h
    cases h
  rw [if_neg h9] at h
  by_cases h10 : a = K.kKeyCodeEscape
  · rw [if_pos h10] at h
    cases h
  rw [if_neg h10] at h
  by_cases h11 : a = K.kKeyCodeI
  · rw [if_pos h11] at h
    cases h
  rw [if_neg h11] at h
  by_cases h12 : a = K.kKeyCodeJ
  · rw [if_pos h12] at h
    cases h
  rw [if_neg h12] at h
  by_cases h13 : a = K.kKeyCodeU
  · rw [if_pos h13] at h
    cases h
  rw [if_neg h13] at h
  by_cases h14 : a = K.kKeyCodeReturn
  · rw [if_pos h14] at h
    cases h
  rw [if_neg h14] at h
  by_cases h15 : a = K.kKeyCode1 ∨ a = K.kKeyCode2 ∨ a = K.kKeyCode3 ∨
      a = K.kKeyCode4 ∨ a = K.kKeyCode5
  · rw [if_pos h15] at h
    cases h
  rw [if_neg h15] at h
  by_cases h16 : a = K.kKeyCodePageUp
  · rw [if_pos h16] at h
    cases h
  rw [if_neg h16] at h
  by_cases h17 : a = K.kKeyCodePageDown
  · rw [if_pos h17] at h
    cases h
  rw [if_neg h17] at h
  by_cases h18 : a = K.kKeyCodeFarNear
  · rw [if_pos h18] at h
    cases h
  rw [if_neg h18] at h
  exact h.elim

theorem testBit_of_single_bit (m i j : Nat) (hm : ∃ k, k < 32 ∧ m = 2 ^ k)
    (hi : m.testBit i = true) (hj : m.testBit j = true) : i = j ∧ m = 2 ^ i := by
  obtain ⟨k, _, rfl⟩ := hm
  rw [Nat.testBit_two_pow] at hi hj
  have h1 := of_decide_eq_true hi
  have h2 := of_decide_eq_true hj
  subst h1
  subst h2
  exact ⟨rfl, rfl⟩

theorem keyField_dirBit_ne (K : KeyCodes) (hK : WellFormed K) (a b : Int) (i j : Nat)
    (ha : keyField K a (Loc.dirBit i)) (hb : keyField K b (Loc.dirBit j)) (hab : a ≠ b) :
    i ≠ j := by
  obtain ⟨hL, hR, hU, hD, hnd, _⟩ := hK
  simp only [List.nodup_cons, List.mem_cons, List.mem_singleton, List.not_mem_nil,
    not_or, List.nodup_nil, or_false, not_false_eq_true, and_true] at hnd
  obtain ⟨⟨n1, n2, n3⟩, ⟨n4, n5⟩, n6⟩ := hnd
  intro hij
  subst hij
  rcases keyField_dirBit K a i ha with ⟨a1, a2⟩ | ⟨_, a1, a2⟩ | ⟨_, _, a1, a2⟩ | ⟨_, _, _, a1, a2⟩ <;>
    rcases keyField_dirBit K b i hb with
      ⟨b1, b2⟩ | ⟨b0, b1, b2⟩ | ⟨b0, b00, b1, b2⟩ | ⟨b0, b00, b000, b1, b2⟩ <;>
    first
    | exact hab (a1.trans b1.symm)
    | (have e1 := (testBit_of_single_bit _ i i hL a2 a2).2
       have e2 := (testBit_of_single_bit _ i i hR b2 b2).2
       exact n1 (e1.trans e2.symm))
    | (have e1 := (testBit_of_single_bit _ i i hL a2 a2).2
       have e2 := (testBit_of_single_bit _ i i hU b2 b2).2
       exact n2 (e1.trans e2.symm))
    | (have e1 := (testBit_of_single_bit _ i i hL a2 a2).2
       have e2 := (testBit_of_single_bit _ i i hD b2 b2).2
       exact n3 (e1.trans e2.symm))
    | (have e1 := (testBit_of_single_bit _ i i hR a2 a2).2
       have e2 := (testBit_of_single_bit _ i i hU b2 b2).2
       exact n4 (e1.trans e2.symm))
    | (have e1 := (testBit_of_single_bit _ i i hR a2 a2).2
       have e2 := (testBit_of_single_bit _ i i hD b2 b2).2
       exact n5 (e1.trans e2.symm))
    | (have e1 := (testBit_of_single_bit _ i i hU a2 a2).2
       have e2 := (testBit_of_single_bit _ i i hD b2 b2).2
       exact n6 (e1.trans e2.symm))
    | (have e1 := (testBit_of_single_bit _ i i hR a2 a2).2
       have e2 := (testBit_of_single_bit _ i i hL b2 b2).2
       exact n1 (e2.trans e1.symm))
    | (have e1 := (testBit_of_single_bit _ i i hU a2 a2).2
       have e2 := (testBit_of_single_bit _ i i hL b2 b2).2
       exact n2 (e2.trans e1.symm))
    | (have e1 := (testBit_of_single_bit _ i i hD a2 a2).2
       have e2 := (testBit_of_single_bit _ i i hL b2 b2).2
       exact n3 (e2.trans e1.symm))
    | (have e1 := (testBit_of_single_bit _ i i hU a2 a2).2
       have e2 := (testBit_of_single_bit _ i i hR b2 b2).2
       exact n4 (e2.trans e1.symm))
    | (have e1 := (testBit_of_single_bit _ i i hD a2 a2).2
       have e2 := (testBit_of_single_bit _ i i hR b2 b2).2
       exact n5 (e2.trans e1.symm))
    | (have e1 := (testBit_of_single_bit _ i i hD a2 a2).2
       have e2 := (testBit_of_single_bit _ i i hU b2 b2).2
       exact n6 (e2.trans e1.symm))

theorem queueKeyInput_dirMask (K : KeyCodes) (hK : WellFormed K) (a : Int) (i : Nat)
    (ha : keyField K a (Loc.dirBit i)) (pressed : Int) (s : GameStub_F2B) (j : Nat) :
    (queueKeyInput K a pressed s)._g.inp.dirMask.testBit j
      = if i = j then decide (pressed ≠ 0) else s._g.inp.dirMask.testBit j := by
  rcases queueKeyInput_cases K hK a with ⟨loc0, hf, _, _, _, hq⟩ | ⟨hnone, _⟩ | ⟨hnone, _⟩
  · have hl : Loc.dirBit i = loc0 := (hf _).1 ha
    subst hl
    rw [hq]
    exact testBit_writeDir _ _ _ _
  · exact absurd ha (hnone _)
  · exact absurd ha (hnone _)

/-- C11: for every key code, when the place assigned to the code is released in the snapshot, a
down event followed by an up event for that code gives back exactly the state before the two
events.  And for two different direction codes `a` and `b`, whose bits are `i` and `j`: the two
bits differ; after down events for both, in either order, both bits are set and the two orders
give the same mask; an up event for `a` after that clears bit `i`, leaves bit `j` set and
leaves every other bit as it was. -/
theorem queueKeyInput_down_up (K : KeyCodes) (hK : WellFormed K) :
    (∀ (keycode pressed : Int) (s : GameStub_F2B), released K keycode s._g.inp →
      queueKeyInput K keycode 0 (queueKeyInput K keycode pressed s) = s) ∧
    (∀ (a b : Int) (i j : Nat) (s : GameStub_F2B),
      keyField K a (Loc.dirBit i) → keyField K b (Loc.dirBit j) → a ≠ b →
      i ≠ j ∧
      (queueKeyInput K b 1 (queueKeyInput K a 1 s))._g.inp.dirMask.testBit i = true ∧
      (queueKeyInput K b 1 (queueKeyInput K a 1 s))._g.inp.dirMask.testBit j = true ∧
      (queueKeyInput K a 1 (queueKeyInput K b 1 s))._g.inp.dirMask
        = (queueKeyInput K b 1 (queueKeyInput K a 1 s))._g.inp.dirMask ∧
      (queueKeyInput K a 0
        (queueKeyInput K b 1 (queueKeyInput K a 1 s)))._g.inp.dirMask.testBit i = false ∧
      (queueKeyInput K a 0
        (queueKeyInput K b 1 (queueKeyInput K a 1 s)))._g.inp.dirMask.testBit j = true ∧
      (∀ k, k ≠ i →
        (queueKeyInput K a 0
          (queueKeyInput K b 1 (queueKeyInput K a 1 s)))._g.inp.dirMask.testBit k
        = (queueKeyInput K b 1 (queueKeyInput K a 1 s))._g.inp.dirMask.testBit k)) := by
  constructor
  · intro keycode pressed s hrel
    rcases queueKeyInput_cases K hK keycode with
      ⟨loc0, hf, _, _, _, hq⟩ | ⟨_, _, hq⟩ | ⟨_, _, hq⟩
    · have h0 : readLoc s._g.inp loc0 = false := hrel loc0 ((hf loc0).2 rfl)
      rw [hq, hq]
      simp only [setInp, ne_eq, not_true_eq_false, decide_False]
      rw [writeLoc_release _ _ _ h0]
    · rw [hq, hq]
      simp only [Nat.xor_cancel_right]
    · rw [hq, hq]
  · intro a b i j s ha hb hab
    have hij := keyField_dirBit_ne K hK a b i j ha hb hab
    have hji : j ≠ i := fun h => hij h.symm
    refine ⟨hij, ?_, ?_, ?_, ?_, ?_, ?_⟩
    · simp [queueKeyInput_dirMask K hK b j hb, queueKeyInput_dirMask K hK a i ha, hji]
    · simp [queueKeyInput_dirMask K hK b j hb]
    · apply Nat.eq_of_testBit_eq
      intro k
      simp only [queueKeyInput_dirMask K hK b j hb, queueKeyInput_dirMask K hK a i ha]
      by_cases h1 : i = k <;> by_cases h2 : j = k <;> simp [h1, h2]
    · simp [queueKeyInput_dirMask K hK a i ha]
    · simp [queueKeyInput_dirMask K hK b j hb, queueKeyInput_dirMask K hK a i ha, hij]
    · intro k hk
      have hik : i ≠ k := fun h => hk h.symm
      rw [queueKeyInput_dirMask K hK a i ha, if_neg hik]

theorem queueKeyInput_down_up_witness :
    queueKeyInput keys0 11 0 (queueKeyInput keys0 11 1 (stubIn kStateGame 47))
      = stubIn kStateGame 47 ∧
    (queueKeyInput keys0 1 0
      (queueKeyInput keys0 3 1
        (queueKeyInput keys0 1 1 (stubIn kStateGame 47))))._g.inp.dirMask.testBit 2 = true :=
  have h := queueKeyInput_down_up keys0 (by decide)
  ⟨h.1 11 1 (stubIn kStateGame 47) (by
      intro loc hloc
      have h2 : loc = Loc.inventoryKey := by
        simpa [keyField, keys0] using hloc
      rw [h2]
      rfl),
   (h.2 1 3 0 2 (stubIn kStateGame 47)
      (by simp [keyField, keys0]) (by simp [keyField, keys0]; decide)
      (by decide)).2.2.2.2.2.1⟩

/-! ## Reachable states -/

theorem advanceLoop_nextState (E : Engine) (s : GameStub_F2B) :
    (advanceLoop E s)._nextState = s._nextState := by
  refine advanceLoop_rel E (fun s t => t._nextState = s._nextState) ?_ ?_ ?_ s
  · intro s _
    rfl
  · intro s _ _
    rfl
  · intro s t _ _ h
    exact h

theorem advance_nextState (E : Engine) (s : GameStub_F2B) :
    (advance E s)._nextState = s._nextState := by
  unfold advance
  split_ifs
  · exact advanceLoop_nextState E s
  · rfl

theorem tickCutscene_next (P : Params) (E : Engine) (ticks : Nat) (s : GameStub_F2B) :
    (tickCutscene P E ticks s)._nextState = s._nextState ∨
    (tickCutscene P E ticks s)._nextState = kStateGame := by
  by_cases hd : (invoke E (Call.cutUpdate ticks) s).1 = false
  · rw [tickCutscene_done P E ticks s hd]
    split_ifs
    · exact Or.inr rfl
    · exact Or.inr rfl
    · exact Or.inl (advance_nextState E _)
  · left
    unfold tickCutscene
    rw [if_neg (by simpa using hd)]
    rfl

theorem tickGame_next (E : Engine) (s : GameStub_F2B) :
    (tickGame E s)._nextState = s._nextState ∨
    (tickGame E s)._nextState = kStateInventory ∨ (tickGame E s)._nextState = kStateMenu ∨
    (tickGame E s)._nextState = kStateCutscene ∨ (tickGame E s)._nextState = kStateCabinet := by
  rw [tickGame_eq]
  split_ifs
  · exact Or.inr (Or.inl rfl)
  · exact Or.inr (Or.inr (Or.inl rfl))
  · exact Or.inr (Or.inr (Or.inr (Or.inl rfl)))
  · exact Or.inr (Or.inr (Or.inr (Or.inr rfl)))
  · exact Or.inl (gameUpdated_nextState E s)

theorem tickInventory_next (E : Engine) (s : GameStub_F2B) :
    (tickInventory E s)._nextState = s._nextState ∨
    (tickInventory E s)._nextState = kStateGame := by
  unfold tickInventory
  dsimp only
  split_ifs
  · exact Or.inr rfl
  · exact Or.inl rfl

theorem tickCabinet_next (E : Engine) (s : GameStub_F2B) :
    (tickCabinet E s)._nextState = s._nextState ∨
    (tickCabinet E s)._nextState = kStateGame := by
  unfold tickCabinet
  dsimp only
  split_ifs
  · exact Or.inr rfl
  · exact Or.inl rfl

theorem tickMenu_next (E : Engine) (s : GameStub_F2B) :
    (tickMenu E s)._nextState = s._nextState ∨
    (tickMenu E s)._nextState = kStateGame := by
  unfold tickMenu
  dsimp only
  split_ifs
  · exact Or.inr rfl
  · exact Or.inr rfl
  · exact Or.inr rfl
  · exact Or.inl rfl

theorem dispatch_next (P : Params) (E : Engine) (ticks : Nat) (s : GameStub_F2B) :
    (dispatch P E ticks s)._nextState = s._nextState ∨
    (dispatch P E ticks s)._nextState = kStateGame ∨
    (s._state = kStateGame ∧
      ((dispatch P E ticks s)._nextState = kStateInventory ∨
       (dispatch P E ticks s)._nextState = kStateMenu ∨
       (dispatch P E ticks s)._nextState = kStateCutscene ∨
       (dispatch P E ticks s)._nextState = kStateCabinet)) := by
  unfold dispatch
  split_ifs with h1 h2 h3 h4 h5 h6
  · rcases tickCutscene_next P E ticks s with h | h
    · exact Or.inl h
    · exact Or.inr (Or.inl h)
  · rcases tickGame_next E s with h | h
    · exact Or.inl h
    · exact Or.inr (Or.inr ⟨h2, h⟩)
  · rcases tickInventory_next E s with h | h
    · exact Or.inl h
    · exact Or.inr (Or.inl h)
  · rcases tickCabinet_next E s with h | h
    · exact Or.inl h
    · exact Or.inr (Or.inl h)
  · rcases tickMenu_next E s with h | h
    · exact Or.inl h
    · exact Or.inr (Or.inl h)
  · exact Or.inl rfl
  · exact Or.inl rfl

theorem transition_playable (E : Engine) (s : GameStub_F2B) (h : ModeInvariant s) :
    playable (transition E s)._state := by
  rw [transition_state]
  obtain ⟨hp, hn⟩ := h
  split_ifs
  · exact hp
  · rcases hn with hn | hn | ⟨_, hn | hn | hn | hn⟩
    · rw [hn]; exact hp
    · rw [hn]; exact Or.inr (Or.inl rfl)
    · rw [hn]; exact Or.inr (Or.inr (Or.inl rfl))
    · rw [hn]; exact Or.inr (Or.inr (Or.inr (Or.inr rfl)))
    · rw [hn]; exact Or.inl rfl
    · rw [hn]; exact Or.inr (Or.inr (Or.inr (Or.inl rfl)))

theorem doTick_invariant (P : Params) (E : Engine) (ticks : Nat) (s : GameStub_F2B)
    (h : ModeInvariant s) : ModeInvariant (doTick P E ticks s) := by
  have hp := transition_playable E s h
  have hst : (doTick P E ticks s)._state = (transition E s)._state := doTick_state P E ticks s
  have hnx : (doTick P E ticks s)._nextState
      = (dispatch P E ticks (transition E s))._nextState := rfl
  have hd := dispatch_next P E ticks (transition E s)
  have htn : (transition E s)._nextState = (transition E s)._state := rfl
  refine ⟨by rw [hst]; exact hp, ?_⟩
  rw [hst, hnx]
  rcases hd with hd | hd | ⟨hg, hd⟩
  · exact Or.inl (hd.trans htn)
  · exact Or.inr (Or.inl hd)
  · exact Or.inr (Or.inr ⟨hg, hd⟩)

theorem queueKeyInput_game_only (K : KeyCodes) (keycode pressed : Int) (s : GameStub_F2B) :
    ∃ g, queueKeyInput K keycode pressed s = { s with _g := g } := by
  unfold queueKeyInput
  by_cases h1 : keycode = K.kKeyCodeLeft
  · rw [if_pos h1]
    exact ⟨_, rfl⟩
  rw [if_neg h1]
  by_cases h2 : keycode = K.kKeyCodeRight
  · rw [if_pos h2]
    exact ⟨_, rfl⟩
  rw [if_neg h2]
  by_cases h3 : keycode = K.kKeyCodeUp
  · rw [if_pos h3]
    exact ⟨_, rfl⟩
  rw [if_neg h3]
  by_cases h4 : keycode = K.kKeyCodeDown
  · rw [if_pos h4]
    exact ⟨_, rfl⟩
  rw [if_neg h4]
  by_cases h5 : keycode = K.kKeyCodeAlt
  · rw [if_pos h5]
    exact ⟨_, rfl⟩
  rw [if_neg h5]
  by_cases h6 : keycode = K.kKeyCodeShift
  · rw [if_pos h6]
    exact ⟨_, rfl⟩
  rw [if_neg h6]
  by_cases h7 : keycode = K.kKeyCodeCtrl
  · rw [if_pos h7]
    exact ⟨_, rfl⟩
  rw [if_neg h7]
  by_cases h8 : keycode = K.kKeyCodeSpace
  · rw [if_pos h8]
    exact ⟨_, rfl⟩
  rw [if_neg h8]
  by_cases h9 : keycode = K.kKeyCodeTab
  · rw [if_pos h9]
    exact ⟨_, rfl⟩
  rw [if_neg h9]
  by_cases h10 : keycode = K.kKeyCodeEscape
  · rw [if_pos h10]
    exact ⟨_, rfl⟩
  rw [if_neg h10]
  by_cases h11 : keycode = K.kKeyCodeI
  · rw [if_pos h11]
    exact ⟨_, rfl⟩
  rw [if_neg h11]
  by_cases h12 : keycode = K.kKeyCodeJ
  · rw [if_pos h12]
    exact ⟨_, rfl⟩
  rw [if_neg h12]
  by_cases h13 : keycode = K.kKeyCodeU
  · rw [if_pos h13]
    exact ⟨_, rfl⟩
  rw [if_neg h13]
  by_cases h14 : keycode = K.kKeyCodeReturn
  · rw [if_pos h14]
    exact ⟨_, rfl⟩
  rw [if_neg h14]
  by_cases h15 : keycode = K.kKeyCode1 ∨ keycode = K.kKeyCode2 ∨ keycode = K.kKeyCode3 ∨
      keycode = K.kKeyCode4 ∨ keycode = K.kKeyCode5
  · rw [if_pos h15]
    exact ⟨_, rfl⟩
  rw [if_neg h15]
  by_cases h16 : keycode = K.kKeyCodePageUp
  · rw [if_pos h16]
    exact ⟨_, rfl⟩
  rw [if_neg h16]
  by_cases h17 : keycode = K.kKeyCodePageDown
  · rw [if_pos h17]
    exact ⟨_, rfl⟩
  rw [if_neg h17]
  by_cases h18 : keycode = K.kKeyCodeFarNear
  · rw [if_pos h18]
    exact ⟨_, rfl⟩
  rw [if_neg h18]
  by_cases h19 : keycode = K.kKeyCodeCheatLifeCounter
  · rw [if_pos h19]
    exact ⟨_, rfl⟩
  rw [if_neg h19]
  exact ⟨s._g, rfl⟩

theorem queueKeyInput_modes (K : KeyCodes) (keycode pressed : Int) (s : GameStub_F2B) :
    (queueKeyInput K keycode pressed s)._state = s._state ∧
    (queueKeyInput K keycode pressed s)._nextState = s._nextState := by
  obtain ⟨g, hg⟩ := queueKeyInput_game_only K keycode pressed s
  rw [hg]
  exact ⟨rfl, rfl⟩

theorem queueTouchInput_modes (p x y down : Int) (s : GameStub_F2B) :
    (queueTouchInput p x y down s)._state = s._state ∧
    (queueTouchInput p x y down s)._nextState = s._nextState := by
  unfold queueTouchInput
  split_ifs
  · split <;> exact ⟨rfl, rfl⟩
  · exact ⟨rfl, rfl⟩

theorem drawGL_modes (E : Engine) (s : GameStub_F2B) :
    (drawGL E s)._state = s._state ∧ (drawGL E s)._nextState = s._nextState := by
  have h1 : ∀ u, (drainLoad E u)._nextState = u._nextState := by
    intro u
    unfold drainLoad
    dsimp only
    split_ifs <;> rfl
  have h2 : ∀ u, (drainSave E u)._nextState = u._nextState := by
    intro u
    unfold drainSave
    dsimp only
    split_ifs <;> rfl
  unfold drawGL
  refine ⟨?_, ?_⟩
  · rw [(drainSave_fields E _).1, (drainLoad_fields E _).1]
    rfl
  · rw [h2, h1]
    rfl

theorem init_modes (E : Engine) (g : Game) :
    (init E kStateCutscene g)._state = kStateCutscene ∧
    (init E kStateCutscene g)._nextState = kStateCutscene := by
  have h : (init E kStateCutscene g)._state = kStateCutscene := by
    unfold init
    dsimp only
    rw [setState_state, if_neg]
    intro hc
    exact absurd hc.1 (by decide)
  exact ⟨h, h⟩

theorem reachable_invariant (P : Params) (K : KeyCodes) (s : GameStub_F2B)
    (h : Reachable P K s) : ModeInvariant s := by
  induction h with
  | start E g =>
    have hm := init_modes E g
    exact ⟨Or.inl hm.1, Or.inl (hm.2.trans hm.1.symm)⟩
  | @tick E ticks s0 _ ih => exact doTick_invariant P E ticks s0 ih
  | @key keycode pressed s0 _ ih =>
    have hm := queueKeyInput_modes K keycode pressed s0
    unfold ModeInvariant
    rw [hm.1, hm.2]
    exact ih
  | @touch p x y down s0 _ ih =>
    have hm := queueTouchInput_modes p x y down s0
    unfold ModeInvariant
    rw [hm.1, hm.2]
    exact ih
  | save slot _ ih => exact ih
  | load slot _ ih => exact ih
  | @draw E s0 _ ih =>
    have hm := drawGL_modes E s0
    unfold ModeInvariant
    rw [hm.1, hm.2]
    exact ih

theorem doTick_installer (P : Params) (E : Engine) (ticks : Nat) (u : GameStub_F2B)
    (h1 : u._state = kStateInstaller) (h2 : u._nextState = kStateInstaller) :
    (doTick P E ticks u)._state = kStateInstaller ∧
    (doTick P E ticks u)._nextState = kStateInstaller := by
  have ht : transition E u = u := transition_same E u (h2.trans h1.symm)
  have hd : dispatch P E ticks u = tickInstaller E u := by
    unfold dispatch
    rw [h1]
    rfl
  refine ⟨?_, ?_⟩
  · rw [doTick_state, ht]
    exact h1
  · show (dispatch P E ticks (transition E u))._nextState = kStateInstaller
    rw [ht, hd]
    exact h2

/-! ## C20 -/

/-- C20: in every state reachable from `init` the current mode is one of the six modes (and
never Installer); whenever pending differs from current, one of the two is Simulation; in
particular, when Inventory is pending and differs from current, current is Simulation, so the
`setState` of the next tick runs no exit effect at all before `initInventory()`, cancelled or
not.  And a stub in Installer mode with Installer pending stays so after every tick. -/
theorem reachable_modes (P : Params) (K : KeyCodes) (s : GameStub_F2B)
    (h : Reachable P K s) :
    (s._state = kStateCutscene ∨ s._state = kStateGame ∨ s._state = kStateInventory ∨
      s._state = kStateCabinet ∨ s._state = kStateMenu ∨ s._state = kStateInstaller) ∧
    s._state ≠ kStateInstaller ∧
    (s._nextState ≠ s._state → s._state = kStateGame ∨ s._nextState = kStateGame) ∧
    (s._nextState = kStateInventory → s._nextState ≠ s._state → s._state = kStateGame) ∧
    (s._nextState = kStateInventory → s._nextState ≠ s._state →
      specExitEffects s._state = [] ∧
      ∀ E : Engine, (transition E s).log
        = s.log ++ [Call.setState kStateInventory, Call.initInventory]) ∧
    (∀ (E : Engine) (ticks : Nat) (u : GameStub_F2B),
      u._state = kStateInstaller → u._nextState = kStateInstaller →
      (doTick P E ticks u)._state = kStateInstaller ∧
      (doTick P E ticks u)._nextState = kStateInstaller) := by
  obtain ⟨hp, hn⟩ := reachable_invariant P K s h
  have hgame : s._nextState = kStateInventory → s._nextState ≠ s._state →
      s._state = kStateGame := by
    intro h1 h2
    rcases hn with hn | hn | ⟨hg, _⟩
    · exact absurd hn h2
    · rw [hn] at h1
      exact absurd h1 (by decide)
    · exact hg
  refine ⟨?_, ?_, ?_, hgame, ?_, fun E ticks u => doTick_installer P E ticks u⟩
  · rcases hp with hp | hp | hp | hp | hp
    · exact Or.inl hp
    · exact Or.inr (Or.inl hp)
    · exact Or.inr (Or.inr (Or.inl hp))
    · exact Or.inr (Or.inr (Or.inr (Or.inl hp)))
    · exact Or.inr (Or.inr (Or.inr (Or.inr (Or.inl hp))))
  · rcases hp with hp | hp | hp | hp | hp <;> rw [hp] <;> decide
  · intro hne
    rcases hn with hn | hn | ⟨hg, _⟩
    · exact absurd hn hne
    · exact Or.inr hn
    · exact Or.inl hg
  · intro h1 h2
    have hg := hgame h1 h2
    refine ⟨by rw [hg]; decide, fun E => ?_⟩
    rw [transition_log]
    unfold specTransitionEffects
    rw [if_neg h2, h1, hg]
    simp [specExitEffects, specEnterEffects, kStateGame, kStateCutscene, kStateCabinet,
      kStateMenu, kStateInventory]

theorem reachable_modes_witness :
    stubInventoryPending._nextState = kStateInventory ∧
    stubInventoryPending._nextState ≠ stubInventoryPending._state ∧
    stubInventoryPending._state = kStateGame ∧
    specExitEffects stubInventoryPending._state = [] ∧
    (transition engineNoInventory stubInventoryPending).log
      = stubInventoryPending.log ++ [Call.setState kStateInventory, Call.initInventory] :=
  have h := reachable_modes params0 keys0 stubInventoryPending
    (Reachable.tick engineOk 16
      (Reachable.key keys0.kKeyCodeI 1
        (Reachable.tick engineSkip 16 (Reachable.start engineOk game0))))
  ⟨by decide, by decide, h.2.2.2.1 (by decide) (by decide),
   (h.2.2.2.2.1 (by decide) (by decide)).1,
   (h.2.2.2.2.1 (by decide) (by decide)).2 engineNoInventory⟩

end GameStub_F2B
